import Mathlib

/-!
Verification development for the subscription-tracking command core
(`command_registry.py` and `command_processor.py`).

The Python source is shallowly embedded: pure functions become Lean
functions, the Firestore / mail collaborators become an explicit `World`
value carrying the outcome of each external call, and Python exceptions
raised by collaborators are modelled as `Except String` results whose
payload is the Python `str(e)` text.  Notes on fidelity:

* Python strings are Lean `String`s; `str.lower()` is `pyLower`
  (ASCII case folding, which covers every string the program builds).
* `datetime.strptime(s, "%Y-%m-%d").date()` is `strptimeYMD` below,
  mirroring CPython: a 4-digit year, 1-2 digit month in 1..12,
  1-2 digit day in 1..31 (ASCII digits), then calendar validation by the
  `datetime` constructor (year at least 1, day within month length with
  Gregorian leap years).  Date subtraction `.days` is `daysFromCivil`,
  the standard civil-calendar day count.
* Firestore documents always carry the fields the `add` handler writes,
  so `dict.get(key, default)` on subscription records is a plain field
  access; `user_data` keys that the code reads with `.get` are `Option`
  fields.  `created_at = datetime.now()` is modelled at day precision.
* The apostrophe character inside message literals is written with the
  escape \x27.
-/

/-! ### Small Python-style string utilities -/

/-- Python slicing `s[:n]` on a string. -/
def pyTake (s : String) (n : Nat) : String := ⟨s.data.take n⟩

/-- Is `needle` an initial segment of `hay`? (helper for Python `in`). -/
def leadsChars : List Char → List Char → Bool
  | [], _ => true
  | _ :: _, [] => false
  | a :: as, b :: bs => a == b && leadsChars as bs

/-- Does `n` occur contiguously inside `hay`? (helper for Python `in`). -/
def occursChars (n : List Char) : List Char → Bool
  | [] => leadsChars n []
  | c :: t => leadsChars n (c :: t) || occursChars n t

/-- Python substring test `needle in hay` on strings. -/
def pyInStr (needle hay : String) : Bool := occursChars needle.data hay.data

/-- Python `c in s` for a single character. -/
def pyHasChar (s : String) (c : Char) : Bool := s.data.contains c

/-- Python `str.split(c)` for a single-character separator. -/
def splitOnChar (c : Char) : List Char → List (List Char)
  | [] => [[]]
  | x :: xs =>
    match splitOnChar c xs with
    | h :: t => if x == c then [] :: h :: t else (x :: h) :: t
    | [] => [[x]]

/-- All characters are ASCII digits. -/
def allDigits (l : List Char) : Bool := l.all (·.isDigit)

/-- Numeric value of a list of ASCII digits. -/
def natOfDigits (l : List Char) : Nat := l.foldl (fun a c => 10 * a + (c.toNat - 48)) 0

/-- Python `str.title()` : first letter of each word upper-cased, the rest
lower-cased (ASCII). -/
def pyTitleGo : Bool → List Char → List Char
  | _, [] => []
  | prevAlpha, c :: t =>
    (if c.isAlpha then (if prevAlpha then c.toLower else c.toUpper) else c)
      :: pyTitleGo c.isAlpha t

/-- Python `str.title()`. -/
def pyTitle (s : String) : String := ⟨pyTitleGo false s.data⟩

/-- Python `str.lower()` (ASCII case folding). -/
def pyLower (s : String) : String := ⟨s.data.map Char.toLower⟩

/-- Python `str.endswith(suffix)`. -/
def pyEndsWith (s suffix : String) : Bool := leadsChars suffix.data.reverse s.data.reverse

/-- Python `s.startswith(pre)`. -/
def pyStartsWith (s pre : String) : Bool := leadsChars pre.data s.data

/-! ### Calendar dates (`datetime.date`) -/

/-- A calendar date as produced by `datetime.strptime(.., "%Y-%m-%d").date()`. -/
structure CalDate where
  year : Int
  month : Int
  day : Int
deriving DecidableEq

/-- Gregorian leap year rule. -/
def isLeapYear (y : Int) : Bool := (y % 4 == 0 && !(y % 100 == 0)) || y % 400 == 0

/-- Length of a month, as enforced by the `datetime` constructor. -/
def daysInMonth (y m : Int) : Int :=
  if m == 2 then (if isLeapYear y then 29 else 28)
  else if m == 4 || m == 6 || m == 9 || m == 11 then 30 else 31

/-- CPython `datetime.strptime(s, "%Y-%m-%d")`: the year is exactly four
ASCII digits, month and day one or two digits within range, the whole
string consumed, and the resulting triple must be a real calendar date. -/
def strptimeYMD (s : String) : Option CalDate :=
  match splitOnChar '-' s.data with
  | [ys, ms, ds] =>
    if ys.length == 4 && allDigits ys &&
        decide (1 ≤ ms.length) && decide (ms.length ≤ 2) && allDigits ms &&
        decide (1 ≤ ds.length) && decide (ds.length ≤ 2) && allDigits ds then
      let y : Int := natOfDigits ys
      let m : Int := natOfDigits ms
      let d : Int := natOfDigits ds
      if 1 ≤ y ∧ 1 ≤ m ∧ m ≤ 12 ∧ 1 ≤ d ∧ d ≤ daysInMonth y m then
        some ⟨y, m, d⟩
      else none
    else none
  | _ => none

/-- Python `date < date` (lexicographic on year, month, day). -/
def dateLt (a b : CalDate) : Bool :=
  decide (a.year < b.year ∨ (a.year = b.year ∧
    (a.month < b.month ∨ (a.month = b.month ∧ a.day < b.day))))

/-- Day number of a civil date (days since 1970-01-01); standard
civil-from-days algorithm, so that Python `(d1 - d2).days` is
`daysFromCivil d1 - daysFromCivil d2`. -/
def daysFromCivil (dt : CalDate) : Int :=
  let y := if dt.month ≤ 2 then dt.year - 1 else dt.year
  let era := (if 0 ≤ y then y else y - 399) / 400
  let yoe := y - era * 400
  let mp := (dt.month + 9) % 12
  let doy := (153 * mp + 2) / 5 + dt.day - 1
  let doe := yoe * 365 + yoe / 4 - yoe / 100 + doy
  era * 146097 + doe - 719468

/-- Python `(expiry_date - today).days`. -/
def daysLeft (expiry today : CalDate) : Int := daysFromCivil expiry - daysFromCivil today

/-! ### `command_registry.py` -/

/-- `CommandDefinition` dataclass. -/
structure CommandDefinition where
  name : String
  description : String
  args : List String
  permissions : List String
  web_ui_component : String
  help_text : String
  examples : List String
deriving DecidableEq

/-- Registry entry for `/start`. -/
def startDef : CommandDefinition :=
  { name := "start"
    description := "Welcome message and account information"
    args := []
    permissions := ["free", "user", "manager", "admin", "owner"]
    web_ui_component := "dashboard_welcome"
    help_text := "Shows welcome message and account details"
    examples := ["/start"] }

/-- Registry entry for `/list`. -/
def listDef : CommandDefinition :=
  { name := "list"
    description := "List all subscriptions with expiry status"
    args := []
    permissions := ["free", "user", "manager", "admin", "owner"]
    web_ui_component := "subscriptions_table"
    help_text := "Display all your subscriptions with expiry dates and status"
    examples := ["/list"] }

/-- Registry entry for `/add`. -/
def addDef : CommandDefinition :=
  { name := "add"
    description := "Add new subscription"
    args := ["username", "email", "service", "expiry", "amount?"]
    permissions := ["free", "user", "manager", "admin", "owner"]
    web_ui_component := "add_subscription_form"
    help_text := "Add a new subscription with username, email, service, expiry date, and optional amount"
    examples := ["/add john_netflix john@gmail.com Netflix 2025-12-31",
                 "/add jane_spotify jane@gmail.com Spotify 2025-06-15 299"] }

/-- Registry entry for `/delete`. -/
def deleteDef : CommandDefinition :=
  { name := "delete"
    description := "Delete subscription by ID"
    args := ["subscription_id"]
    permissions := ["free", "user", "manager", "admin", "owner"]
    web_ui_component := "delete_button"
    help_text := "Delete a subscription using its ID (get ID from /list command)"
    examples := ["/delete abc12345", "/delete gRNNegwP"] }

/-- Registry entry for `/search`. -/
def searchDef : CommandDefinition :=
  { name := "search"
    description := "Search subscriptions by keyword"
    args := ["keyword"]
    permissions := ["free", "user", "manager", "admin", "owner"]
    web_ui_component := "search_form"
    help_text := "Search subscriptions by service name, username, or email"
    examples := ["/search Netflix", "/search john@gmail.com", "/search john_netflix"] }

/-- Registry entry for `/sendreminder`. -/
def sendreminderDef : CommandDefinition :=
  { name := "sendreminder"
    description := "Send email reminders for expiring subscriptions"
    args := []
    permissions := ["user", "manager", "admin", "owner"]
    web_ui_component := "reminder_button"
    help_text := "Send email notifications for subscriptions expiring in the next 7 days"
    examples := ["/sendreminder"] }

/-- Registry entry for `/upgrade`. -/
def upgradeDef : CommandDefinition :=
  { name := "upgrade"
    description := "Upgrade subscription plan"
    args := ["plan_type?"]
    permissions := ["free", "user", "manager", "admin", "owner"]
    web_ui_component := "upgrade_form"
    help_text := "Upgrade to a higher plan or view available plans"
    examples := ["/upgrade", "/upgrade premium", "/upgrade yearly_unlimited"] }

/-- Registry entry for `/stats`. -/
def statsDef : CommandDefinition :=
  { name := "stats"
    description := "Show account statistics"
    args := []
    permissions := ["user", "manager", "admin", "owner"]
    web_ui_component := "stats_dashboard"
    help_text := "Display account statistics including subscription count, expiring subscriptions, and plan details"
    examples := ["/stats"] }

/-- Registry entry for `/help`. -/
def helpDef : CommandDefinition :=
  { name := "help"
    description := "Show available commands and help"
    args := ["command?"]
    permissions := ["free", "user", "manager", "admin", "owner"]
    web_ui_component := "help_modal"
    help_text := "Show all available commands or detailed help for a specific command"
    examples := ["/help", "/help add", "/help search"] }

/-- Registry entry for `/forcedreminder`. -/
def forcedreminderDef : CommandDefinition :=
  { name := "forcedreminder"
    description := "Force send reminders to all users (Admin only)"
    args := []
    permissions := ["admin", "owner"]
    web_ui_component := "admin_reminder_button"
    help_text := "Send reminders to all users regardless of expiry dates (Admin only)"
    examples := ["/forcedreminder"] }

/-- Registry entry for `/promote`. -/
def promoteDef : CommandDefinition :=
  { name := "promote"
    description := "Promote user to manager role (Admin only)"
    args := ["user_id", "role"]
    permissions := ["admin", "owner"]
    web_ui_component := "admin_user_management"
    help_text := "Promote a user to manager or admin role"
    examples := ["/promote FREE12345678 manager", "/promote USER87654321 admin"] }

/-- The `COMMANDS` dict of `command_registry.py` (insertion order preserved). -/
def COMMANDS : List (String × CommandDefinition) :=
  [("start", startDef), ("list", listDef), ("add", addDef), ("delete", deleteDef),
   ("search", searchDef), ("sendreminder", sendreminderDef), ("upgrade", upgradeDef),
   ("stats", statsDef), ("help", helpDef), ("forcedreminder", forcedreminderDef),
   ("promote", promoteDef)]

/-- `get_command(name)`: dictionary lookup on `name.lower()`. -/
def get_command (name : String) : Option CommandDefinition :=
  COMMANDS.lookup (pyLower name)

/-- `get_all_commands()`. -/
def get_all_commands : List (String × CommandDefinition) := COMMANDS

/-- `get_commands_for_role(role)`: the definitions whose `permissions`
contain the role, in registry order. -/
def get_commands_for_role (role : String) : List (String × CommandDefinition) :=
  COMMANDS.filter (fun p => p.2.permissions.contains role)

/-- Required arguments of a definition (entries not ending in `?`). -/
def requiredArgsOf (cmd : CommandDefinition) : List String :=
  cmd.args.filter (fun a => !pyEndsWith a "?")

/-- Optional arguments of a definition (entries ending in `?`). -/
def optionalArgsOf (cmd : CommandDefinition) : List String :=
  cmd.args.filter (fun a => pyEndsWith a "?")

/-- `validate_command_args(command_name, args)`. -/
def validate_command_args (command_name : String) (args : List String) : Bool × String :=
  match get_command command_name with
  | none => (false, "Unknown command: " ++ command_name)
  | some cmd =>
    if args.length < (requiredArgsOf cmd).length then
      (false, "Missing required arguments. Expected: " ++
        String.intercalate ", " (requiredArgsOf cmd))
    else
      if args.length > (requiredArgsOf cmd).length + (optionalArgsOf cmd).length ∧
          (requiredArgsOf cmd).length + (optionalArgsOf cmd).length > 0 then
        (false, "Too many arguments. Maximum: " ++
          toString ((requiredArgsOf cmd).length + (optionalArgsOf cmd).length))
      else (true, "Valid")

/-- Sanity: the civil day count places the Unix epoch at zero. -/
theorem daysFromCivil_epoch : daysFromCivil ⟨1970, 1, 1⟩ = 0 := by decide

/-- Sanity: leap-day validation accepts 2024-02-29 and rejects 2025-02-29. -/
theorem strptime_leap_examples :
    strptimeYMD "2024-02-29" = some ⟨2024, 2, 29⟩ ∧ strptimeYMD "2025-02-29" = none := by
  constructor <;> decide

/-! ### Data model: plans, users, subscriptions (`main.py` tables and
Firestore documents) -/

/-- One entry of the `SUBSCRIPTION_PLANS` table. -/
structure Plan where
  name : String
  price : String
  max_subscriptions : Int
  validity_days : Option Int
  features : List String
deriving DecidableEq

/-- The `SUBSCRIPTION_PLANS` dict of `main.py` (insertion order preserved). -/
def SUBSCRIPTION_PLANS : List (String × Plan) :=
  [("free", ⟨"Free Plan", "₹0 (Lifetime)", 5, none,
      ["Up to 5 OTT subscriptions", "Basic reminders", "Telegram + Web access"]⟩),
   ("basic", ⟨"Basic Plan", "₹299/month", 15, some 30,
      ["Up to 15 OTT subscriptions", "Email reminders", "Priority support"]⟩),
   ("premium", ⟨"Premium Plan", "₹599/month", 30, some 30,
      ["Up to 30 OTT subscriptions", "Email + SMS reminders", "Data export", "24/7 support"]⟩),
   ("enterprise", ⟨"Enterprise Plan", "₹999/month", 100, some 30,
      ["Up to 100 subscriptions", "All premium features", "API access", "Custom integration"]⟩),
   ("monthly_unlimited", ⟨"Monthly Unlimited", "₹499 (30 Days)", 999999, some 30,
      ["Unlimited OTT subscriptions", "Manager role access", "Email + SMS reminders",
       "Priority support", "Advanced analytics"]⟩),
   ("yearly_unlimited", ⟨"Yearly Unlimited", "₹4999 (365 Days)", 999999, some 365,
      ["Unlimited OTT subscriptions", "Manager role access", "Email + SMS reminders",
       "Priority support", "Advanced analytics", "17% discount vs monthly!"]⟩)]

/-- The `USER_ROLES` rank table of `main.py` (stored by the processor
constructor but never consulted by `process_command`, which authorizes by
membership in a definition's `permissions` list). -/
def USER_ROLES : List (String × Int) :=
  [("owner", 5), ("admin", 4), ("manager", 3), ("user", 2), ("free", 1)]

/-- A subscription document body (`sub.to_dict()`).  Documents are created
by `_handle_add`, so every field is present; `created_at` is kept at day
precision. -/
structure SubData where
  username : String
  email : String
  service : String
  expiry : String
  amount_received : String
  telegram_chat_id : Option String
  created_at : CalDate
  note : String
deriving DecidableEq

/-- A Firestore document: generated id plus body. -/
structure Doc where
  id : String
  data : SubData
deriving DecidableEq

/-- The `user_data` dict handed to `process_command`.  Keys the code reads
with `.get` (or that may be absent in a raw Firestore record) are
`Option`s; `unique_id`, `telegram_username` and `plan_type` are written at
user creation and read with direct indexing. -/
structure UserData where
  unique_id : String
  telegram_username : String
  telegram_chat_id : Option String
  plan_type : String
  role : Option String
  max_subscriptions : Option Int
  expiry_date : Option String
deriving DecidableEq

/-- Outcome of each external collaborator call a single command may make.
An `Except.error e` models the Python call raising an exception with
`str(e) = e`. -/
structure World where
  subsDb : Except String (List Doc)
  insertResult : Except String String
  deleteResult : Except String Unit
  mailResult : Except String Unit

/-- Storage mutations performed by a handler. -/
inductive DbEffect where
  | insert (collection : String) (rec : SubData)
  | delete (collection : String) (id : String)
deriving DecidableEq

/-- The structured `data` payloads the handlers attach to responses. -/
inductive Payload where
  | userInfo (u : UserData)
  | subscriptions (subs : List Doc)
  | results (subs : List Doc)
  | added (id : String) (sub : SubData)
  | deletedSub (sub : SubData)
  | commandHelp (c : CommandDefinition)
  | availableCommands (names : List String)
  | statsData (total active expiring expired : Nat) (total_amount : Rat) (plan : Plan) (u : UserData)
  | expiringSubs (subs : List SubData)
  | planInfo (p : Plan)
  | allPlans (plans : List (String × Plan)) (current : String)
deriving DecidableEq

/-- The `CommandResponse` dataclass (uniform response envelope). -/
structure CommandResponse where
  success : Bool
  message : String
  data : Option Payload
  web_redirect : Option String
  telegram_parse_mode : String
deriving DecidableEq

/-- `db.collection('subscriptions').where('telegram_chat_id', '==',
user_data.get('telegram_chat_id')).stream()` applied to a fetched
collection: an order-preserving filter. -/
def callerSubs (db : List Doc) (ud : UserData) : List Doc :=
  db.filter (fun d => d.data.telegram_chat_id == ud.telegram_chat_id)

/-- Python `str(KeyError(k))`, which renders the missing key in quotes. -/
def keyErrStr (k : String) : String := "\x27" ++ k ++ "\x27"

/-- Approximate Python `float(s)` for the decimal literals the program
stores: optional surrounding spaces, optional sign, digits with an
optional fractional part, read as an exact rational.  Exponent forms and
binary-float rounding are not modelled (no claim depends on them). -/
def decimalCore (l : List Char) : Option Rat :=
  match splitOnChar '.' l with
  | [ip] => if ip ≠ [] ∧ allDigits ip then some ((natOfDigits ip : Rat)) else none
  | [ip, fp] =>
    if (ip ≠ [] ∨ fp ≠ []) ∧ allDigits ip ∧ allDigits fp then
      some ((natOfDigits ip : Rat) + (natOfDigits fp : Rat) / ((10 : Rat) ^ fp.length))
    else none
  | _ => none

/-- Approximate Python `float(s)` (see `decimalCore`). -/
def pyFloat? (s : String) : Option Rat :=
  match ((s.data.dropWhile (· == ' ')).reverse.dropWhile (· == ' ')).reverse with
  | '-' :: rest => (decimalCore rest).map (fun r => -r)
  | '+' :: rest => decimalCore rest
  | t => decimalCore t

/-- Rendering of `f"{x:.0f}"` (rounding to the nearest integer; the
half-to-even tie rule of binary floats is not modelled). -/
def pyFormatF0 (r : Rat) : String := toString (round r)

/-- Rendering of `f"{x:.1f}"` (one decimal place, same caveat). -/
def pyFormatF1 (r : Rat) : String :=
  toString (round (r * 10) / 10 : Int) ++ "." ++ toString ((round (r * 10) : Int) % 10).natAbs

/-! ### Response constructors of `command_processor.py`

Failure messages are written as a literal head appended (right
associated) to the dynamic tail, mirroring the f-strings of the source;
this head literal is what distinguishes the failure kinds. -/

/-- Unknown-command failure (`process_command`). -/
def unknownCmdResp (command_name : String) : CommandResponse :=
  ⟨false, "❌ **Unknown command:** `" ++
    (command_name ++
      "`\n\nUse `/help` to see available commands.\n\n**Popular commands:**\n• `/start` - Get started\n• `/list` - View subscriptions\n• `/add` - Add subscription\n• `/help` - Show help"),
    none, none, "Markdown"⟩

/-- Permission-denied failure (`process_command`). -/
def permissionDeniedResp (user_role : String) (perms : List String) : CommandResponse :=
  ⟨false, "❌ **Permission denied**\n\nYou don\x27t have permission to use this command.\n\nYour role: `" ++
    (user_role ++ ("`\nRequired: `" ++ (String.intercalate "`, `" perms ++ "`"))),
    none, none, "Markdown"⟩

/-- Handler-missing failure (`process_command`). -/
def notImplResp (command_name : String) : CommandResponse :=
  ⟨false, "❌ Command handler not implemented: `" ++
    (command_name ++
      "`\n\nThis command is recognized but not yet implemented. Please contact support."),
    none, none, "Markdown"⟩

/-- Top-level fault barrier of `process_command`: `str(e)` truncated to
100 characters. -/
def errProcessingResp (e : String) : CommandResponse :=
  ⟨false, "❌ **Error processing command:** " ++
    (pyTake e 100 ++ "\n\nPlease try again or contact support if the problem persists."),
    none, none, "Markdown"⟩

/-- `_handle_start` success response. -/
def startResp (ud : UserData) (plan_name : String) (maxS : Int) : CommandResponse :=
  ⟨true, "🎉 **Welcome to OTT Reminder Bot!**\n\n👤 **Your Account:**\n🆔 ID: `" ++
    ud.unique_id ++ "`\n📦 Plan: " ++ plan_name ++ "\n📋 Limit: " ++ toString maxS ++
    " subscriptions\n\n**🌐 Web Dashboard:**\nhttps://your-project-v2.onrender.com\n\n**🚀 Quick Start:**\n• `/add username email service expiry` - Add subscription\n• `/list` - View all subscriptions  \n• `/help` - Show all commands\n\nUse `/help` for complete command list!",
    some (.userInfo ud), some "/dashboard", "Markdown"⟩

/-- `_handle_list` local fault barrier: `str(e)` embedded untruncated. -/
def errFetchingResp (e : String) : CommandResponse :=
  ⟨false, "❌ **Error fetching subscriptions:** " ++
    (e ++ "\n\nPlease try again or contact support."), none, none, "Markdown"⟩

/-- `_handle_list` response for an empty store (a success). -/
def noSubsListResp : CommandResponse :=
  ⟨true, "📋 **No Subscriptions Found**\n\nGet started by adding your first subscription:\n\n**Example:**\n`/add john_netflix john@gmail.com Netflix 2025-12-31`\n\nThis adds Netflix subscription for john_netflix that expires on Dec 31, 2025.",
    some (.subscriptions []), none, "Markdown"⟩

/-- Status and days-left classification used by `_handle_list`
(3-day expiring threshold). -/
def listStatus (today : CalDate) (expiryStr : String) : String × Int :=
  match strptimeYMD expiryStr with
  | some d =>
    (if daysLeft d today < 0 then "🔴 EXPIRED"
     else if daysLeft d today ≤ 3 then "🟡 EXPIRING SOON"
     else "✅ ACTIVE", daysLeft d today)
  | none => ("❓ UNKNOWN", 0)

/-- One numbered block of the `/list` message. -/
def listRow (today : CalDate) (i : Nat) (d : Doc) : String :=
  "**" ++ toString i ++ ". " ++ d.data.service ++ "** " ++ (listStatus today d.data.expiry).1 ++
  "\n🆔 ID: `" ++ pyTake d.id 8 ++ "`\n👤 Username: `" ++ d.data.username ++
  "`\n📧 Email: `" ++ d.data.email ++ "`\n💰 Amount: ₹" ++ d.data.amount_received ++
  "\n📅 Expires: `" ++ d.data.expiry ++ "` (" ++ toString (listStatus today d.data.expiry).2 ++
  " days)\n─────────────────────\n\n"

/-- The numbered blocks of the `/list` message, 1-based. -/
def listRows (today : CalDate) : Nat → List Doc → String
  | _, [] => ""
  | i, d :: t => listRow today i d ++ listRows today (i + 1) t

/-- `_handle_list` success response for a nonempty store. -/
def listOkResp (today : CalDate) (subs : List Doc) (first : Doc) : CommandResponse :=
  ⟨true, "📋 **Your Subscriptions:**\n\n" ++ listRows today 1 subs ++
    "💡 **Tip:** Use `/delete ID` to remove a subscription (e.g., `/delete " ++
    pyTake first.id 8 ++ "`)",
    some (.subscriptions subs), none, "Markdown"⟩

/-- `_handle_add` missing-arguments failure. -/
def addMissingResp : CommandResponse :=
  ⟨false, "❌ **Missing required information!**\n\n**Usage:** `/add username email service expiry [amount]`\n\n**Examples:**\n• `/add john_netflix john@gmail.com Netflix 2025-12-31`\n• `/add jane_spotify jane@gmail.com Spotify 2025-06-15 299`\n\n**Required:**\n• `username` - Your account username\n• `email` - Your email address\n• `service` - Service name (Netflix, Disney+, etc.)\n• `expiry` - Expiry date (YYYY-MM-DD format)\n\n**Optional:**\n• `amount` - Amount paid (₹)",
    none, none, "Markdown"⟩

/-- `_handle_add` invalid-email failure. -/
def invalidEmailResp : CommandResponse :=
  ⟨false, "❌ **Invalid email format!**\n\nPlease provide a valid email address.\n\n**Example:** `john@gmail.com`",
    none, none, "Markdown"⟩

/-- `_handle_add` past-expiry failure. -/
def pastDateResp : CommandResponse :=
  ⟨false, "❌ **Expiry date is in the past!**\n\nPlease provide a future date.\n\n**Format:** YYYY-MM-DD\n**Example:** `2025-12-31`",
    none, none, "Markdown"⟩

/-- `_handle_add` unparseable-expiry failure. -/
def invalidDateResp : CommandResponse :=
  ⟨false, "❌ **Invalid date format!**\n\n**Required format:** YYYY-MM-DD\n\n**Examples:**\n• `2025-12-31` (Dec 31, 2025)\n• `2025-06-15` (Jun 15, 2025)\n• `2026-01-01` (Jan 1, 2026)",
    none, none, "Markdown"⟩

/-- `_handle_add` quota failure, with the `/upgrade` redirect hint. -/
def quotaResp (plan_name : String) (max_subs : Int) (current_count : Nat) : CommandResponse :=
  ⟨false, "❌ **Subscription limit reached!**\n\n**Current plan:** " ++
    (plan_name ++ ("\n**Limit:** " ++ (toString max_subs ++ (" subscriptions\n**Used:** " ++
      (toString current_count ++ ("/" ++ (toString max_subs ++
        "\n\n**Solution:**\nUpgrade your plan to add more subscriptions.\nUse `/upgrade` to see available plans."))))))),
    none, some "/upgrade", "Markdown"⟩

/-- `_handle_add` local fault barrier: `str(e)` embedded untruncated. -/
def errAddingResp (e : String) : CommandResponse :=
  ⟨false, "❌ **Error adding subscription:** " ++
    (e ++ "\n\nPlease check your information and try again."), none, none, "Markdown"⟩

/-- The document body `_handle_add` inserts. -/
def newSubData (u em sv ex amount : String) (ud : UserData) (today : CalDate) : SubData :=
  ⟨u, em, sv, ex, amount, ud.telegram_chat_id, today, "Added via unified command processor"⟩

/-- `_handle_add` success response. -/
def addSuccessResp (u em sv ex amount newId : String) (rec : SubData) : CommandResponse :=
  ⟨true, "✅ **Subscription Added Successfully!**\n\n🎬 **Service:** " ++
    (sv ++ ("\n👤 **Username:** " ++ (u ++ ("\n📧 **Email:** " ++ (em ++ ("\n💰 **Amount:** ₹" ++
      (amount ++ ("\n📅 **Expires:** " ++ (ex ++ ("\n🆔 **ID:** `" ++ (pyTake newId 8 ++
        "`\n\n💡 Use `/list` to see all your subscriptions!"))))))))))),
    some (.added newId rec), some "/dashboard", "Markdown"⟩

/-- `_handle_delete` missing-id failure. -/
def idRequiredResp : CommandResponse :=
  ⟨false, "❌ **Subscription ID required!**\n\n**Usage:** `/delete subscription_id`\n\n**Examples:**\n• `/delete abc12345`\n• `/delete gRNNegwP`\n\n**📋 To get subscription IDs:**\n1. Use `/list` command\n2. Copy the 8-character ID shown\n3. Use that ID with `/delete`\n\n💡 **Tip:** You only need the first 8 characters of the ID!",
    none, none, "Markdown"⟩

/-- `_handle_delete` failure when the caller has no subscriptions at all. -/
def noSubsDeleteResp : CommandResponse :=
  ⟨false, "📋 **No subscriptions found!**\n\nYou don\x27t have any subscriptions to delete.\n\nUse `/add` to add your first subscription.",
    none, none, "Markdown"⟩

/-- The candidate hint block of the delete not-found message: the first
three subscriptions, plus a count of the remainder. -/
def deleteHints (all_subs : List Doc) : String :=
  (String.intercalate "\n" ((all_subs.take 3).map
      (fun sub => "• `" ++ pyTake sub.id 8 ++ "` - " ++ sub.data.service))) ++
  (if all_subs.length > 3 then "\n• ... and " ++ toString (all_subs.length - 3) ++ " more" else "")

/-- `_handle_delete` not-found failure with up to three candidate hints. -/
def notFoundResp (sub_id : String) (all_subs : List Doc) : CommandResponse :=
  ⟨false, "❌ **Subscription not found!**\n\n🔍 **Searched for:** `" ++
    (sub_id ++ ("`\n\n**Available subscriptions:**\n" ++ (deleteHints all_subs ++
      "\n\n💡 **Tips:**\n• Use `/list` to see all subscriptions\n• Make sure to copy the ID exactly\n• You can use partial IDs (first 8 characters)"))),
    none, none, "Markdown"⟩

/-- `_handle_delete` local fault barrier: `str(e)` truncated to 100. -/
def deleteErrResp (e : String) : CommandResponse :=
  ⟨false, "❌ **Delete Error:** " ++
    (pyTake e 100 ++ "\n\nPlease try again or contact support."), none, none, "Markdown"⟩

/-- `_handle_delete` success response carrying the deleted snapshot. -/
def deleteSuccessResp (target : Doc) : CommandResponse :=
  ⟨true, "✅ **Successfully Deleted!**\n\n🎬 **Service:** " ++ target.data.service ++
    "\n👤 **Username:** " ++ target.data.username ++ "\n📧 **Email:** " ++ target.data.email ++
    "\n🗑️ **ID:** `" ++ pyTake target.id 8 ++
    "`\n\n💡 Use `/list` to see your remaining subscriptions.",
    some (.deletedSub target.data), some "/dashboard", "Markdown"⟩

/-- `_handle_search` missing-keyword failure. -/
def kwRequiredResp : CommandResponse :=
  ⟨false, "❌ **Search keyword required!**\n\n**Usage:** `/search keyword`\n\n**Examples:**\n• `/search Netflix` - Find Netflix subscriptions\n• `/search john@gmail.com` - Find by email\n• `/search john_netflix` - Find by username\n\n**💡 What you can search for:**\n• Service names (Netflix, Spotify, Disney+)\n• Email addresses\n• Usernames\n• Any part of subscription details",
    none, none, "Markdown"⟩

/-- `_handle_search` local fault barrier: `str(e)` embedded untruncated. -/
def searchErrResp (e : String) : CommandResponse :=
  ⟨false, "❌ **Search Error:** " ++
    (e ++ "\n\nPlease try again with a different keyword."), none, none, "Markdown"⟩

/-- `_handle_search` response for an empty store (a success with an empty
result payload). -/
def emptySearchResp : CommandResponse :=
  ⟨true, "📋 **No subscriptions to search**\n\nYou don\x27t have any subscriptions yet.\n\n**Get started:**\n`/add john_netflix john@gmail.com Netflix 2025-12-31`",
    some (.results []), none, "Markdown"⟩

/-- `_handle_search` response when nothing matches (a success with an
empty result payload). -/
def noMatchResp (raw_query : String) (total : Nat) : CommandResponse :=
  ⟨true, "🔍 **No matches found for** `" ++ raw_query ++
    "`\n\n**Search tips:**\n• Try partial matches (e.g., \x27Net\x27 for Netflix)\n• Search by service name, email, or username\n• Check spelling\n\n**Your subscriptions:**\nUse `/list` to see all " ++
    toString total ++ " subscription(s)",
    some (.results []), none, "Markdown"⟩

/-- Status and days-left classification used by `_handle_search`
(7-day expiring threshold). -/
def searchStatus (today : CalDate) (expiryStr : String) : String × Int :=
  match strptimeYMD expiryStr with
  | some d =>
    (if daysLeft d today < 0 then "🔴 EXPIRED"
     else if daysLeft d today ≤ 7 then "🟡 EXPIRING SOON"
     else "✅ ACTIVE", daysLeft d today)
  | none => ("❓ UNKNOWN", 0)

/-- One numbered block of the `/search` result message. -/
def searchRow (today : CalDate) (i : Nat) (d : Doc) : String :=
  "**" ++ toString i ++ ". " ++ d.data.service ++ "** " ++ (searchStatus today d.data.expiry).1 ++
  "\n🆔 ID: `" ++ pyTake d.id 8 ++ "`\n👤 Username: `" ++ d.data.username ++
  "`\n📧 Email: `" ++ d.data.email ++ "`\n📅 Expires: `" ++ d.data.expiry ++ "` (" ++
  toString (searchStatus today d.data.expiry).2 ++ " days)\n─────────────────────\n\n"

/-- The numbered blocks of the `/search` result message, 1-based. -/
def searchRows (today : CalDate) : Nat → List Doc → String
  | _, [] => ""
  | i, d :: t => searchRow today i d ++ searchRows today (i + 1) t

/-- `_handle_search` success response with matches. -/
def searchOkResp (today : CalDate) (raw_query : String) (found : List Doc) (total : Nat) :
    CommandResponse :=
  ⟨true, "🔍 **Found " ++ toString found.length ++ " result(s) for** `" ++ raw_query ++
    "`:\n\n" ++ searchRows today 1 found ++
    "💡 **Tips:**\n• Use `/delete ID` to remove any subscription\n• Use `/list` to see all " ++
    toString total ++ " subscription(s)",
    some (.results found), none, "Markdown"⟩

/-- First-five available command names, back-quoted and comma-joined. -/
def helpAvailList (available : List (String × CommandDefinition)) : String :=
  String.intercalate ", " (((available.map (·.1)).take 5).map (fun c => "`" ++ c ++ "`"))

/-- `_handle_help` not-found / not-visible failure. -/
def helpNotFoundResp (raw_arg : String) (available : List (String × CommandDefinition)) :
    CommandResponse :=
  ⟨false, "❌ **Command not found:** `" ++
    (raw_arg ++ ("`\n\n**Available commands:**\n" ++
      (helpAvailList available ++ "\n\nUse `/help` to see all commands."))),
    none, none, "Markdown"⟩

/-- Example block of the specific-command help message. -/
def exampleLines : List String → String
  | [] => ""
  | e :: t => "• `" ++ e ++ "`\n" ++ exampleLines t

/-- `_handle_help` success response for one command. -/
def helpCmdResp (cmd_name : String) (cd : CommandDefinition) : CommandResponse :=
  ⟨true, "📖 **Help for /" ++ cmd_name ++ "**\n\n**Description:**\n" ++ cd.help_text ++
    "\n\n**Examples:**\n" ++ exampleLines cd.examples,
    some (.commandHelp cd), none, "Markdown"⟩

/-- Lines of one command group of the general help message. -/
def groupLines (available : List (String × CommandDefinition)) : List String → String
  | [] => ""
  | c :: t =>
    (match available.lookup c with
     | some cd => "• `/" ++ c ++ "` - " ++ cd.description ++ "\n"
     | none => "") ++ groupLines available t

/-- `add_command_group` of `_handle_help`. -/
def addCommandGroup (available : List (String × CommandDefinition))
    (title : String) (cmds : List String) (emoji : String) : String :=
  "**" ++ emoji ++ " " ++ title ++ ":**\n" ++ groupLines available cmds ++ "\n"

/-- `any(cmd in available_commands for cmd in cmds)`. -/
def anyAvail (available : List (String × CommandDefinition)) (cmds : List String) : Bool :=
  cmds.any (fun c => (available.map (·.1)).contains c)

/-- `_handle_help` general success response. -/
def helpGeneralResp (user_role : String) (available : List (String × CommandDefinition)) :
    CommandResponse :=
  ⟨true, "📖 **OTT Manager Bot Help**\n\nYour role: `" ++ user_role ++
    "`\n\n**📋 Available Commands:**\n\n" ++
    addCommandGroup available "Basic Commands" ["start", "help", "stats"] "🏠" ++
    addCommandGroup available "Subscription Management" ["add", "list", "delete", "search"] "🎬" ++
    (if anyAvail available ["sendreminder"] then
      addCommandGroup available "Reminders" ["sendreminder"] "🔔" else "") ++
    (if anyAvail available ["upgrade"] then
      addCommandGroup available "Plan Management" ["upgrade"] "💎" else "") ++
    (if anyAvail available ["promote", "makeadmin", "removeadmin", "forcedreminder"] then
      addCommandGroup available "Admin Commands" ["promote", "makeadmin", "removeadmin", "forcedreminder"] "👑"
     else "") ++
    "💡 **Tips:**\n• Use `/help command_name` for detailed help\n• Example: `/help add` for add command help\n• Start with `/add` to add your first subscription!",
    some (.availableCommands (available.map (·.1))), none, "Markdown"⟩

/-- `_handle_stats` local fault barrier: `str(e)` embedded untruncated. -/
def statsErrResp (e : String) : CommandResponse :=
  ⟨false, "❌ **Stats Error:** " ++ (e ++ "\n\nPlease try again later."), none, none, "Markdown"⟩

/-- Amount contribution of one row to the stats sum. -/
def statsAmount (s : String) : Rat :=
  if s == "N/A" then 0 else (pyFloat? s).getD 0

/-- The counting loop of `_handle_stats`: (active, expiring, expired,
summed amount); rows with unparseable expiry are skipped entirely,
unparseable amounts are skipped from the sum only. -/
def statsFold (today : CalDate) : List Doc → Nat × Nat × Nat × Rat
  | [] => (0, 0, 0, 0)
  | d :: t =>
    match statsFold today t with
    | (a, e, x, amt) =>
      match strptimeYMD d.data.expiry with
      | none => (a, e, x, amt)
      | some ed =>
        if daysLeft ed today < 0 then (a, e, x + 1, amt + statsAmount d.data.amount_received)
        else if daysLeft ed today ≤ 7 then (a, e + 1, x, amt + statsAmount d.data.amount_received)
        else (a + 1, e, x, amt + statsAmount d.data.amount_received)

/-- `_handle_stats` success response. -/
def statsOkResp (ud : UserData) (plan : Plan) (role : String) (maxS : Int)
    (subs : List Doc) (today : CalDate) : CommandResponse :=
  ⟨true, "📊 **Account Statistics**\n\n👤 **Account Details:**\n🆔 **ID:** `" ++ ud.unique_id ++
    "`\n📦 **Plan:** " ++ plan.name ++ "\n🎭 **Role:** " ++ pyTitle role ++
    "\n💰 **Plan Price:** " ++ plan.price ++ "\n\n📋 **Subscription Overview:**\n📈 **Total:** " ++
    toString subs.length ++ "/" ++ toString maxS ++ "\n✅ **Active:** " ++
    toString (statsFold today subs).1 ++ "\n🟡 **Expiring (≤7 days):** " ++
    toString (statsFold today subs).2.1 ++ "\n🔴 **Expired:** " ++
    toString (statsFold today subs).2.2.1 ++ "\n💵 **Total Spent:** ₹" ++
    pyFormatF0 (statsFold today subs).2.2.2 ++ "\n\n📅 **Plan Details:**\n⏳ **Validity:** " ++
    (match ud.expiry_date with
     | none => "Lifetime"
     | some ex => if ex == "" then "Lifetime" else ex) ++
    "\n🎯 **Usage:** " ++ pyFormatF1 ((subs.length : Rat) / (maxS : Rat) * 100) ++
    "% of limit used" ++
    (if (statsFold today subs).2.1 > 0 then
      "\n\n🚨 **Action Required:**\n" ++ toString (statsFold today subs).2.1 ++
      " subscription(s) expiring soon!\nUse `/sendreminder` to get email notifications."
     else ""),
    some (.statsData subs.length (statsFold today subs).1 (statsFold today subs).2.1
      (statsFold today subs).2.2.1 (statsFold today subs).2.2.2 plan ud),
    none, "Markdown"⟩

/-- `_handle_sendreminder` local fault barrier: `str(e)` untruncated. -/
def reminderErrResp (e : String) : CommandResponse :=
  ⟨false, "❌ **Reminder Error:** " ++
    (e ++ "\n\nPlease check your email settings or try again later."), none, none, "Markdown"⟩

/-- `_handle_sendreminder` response when nothing expires within 7 days. -/
def reminderNoneResp : CommandResponse :=
  ⟨true, "✅ **No urgent reminders needed!**\n\nNo subscriptions are expiring in the next 7 days.\n\n💡 **Tip:** Use `/list` to see all subscription expiry dates.",
    none, none, "Markdown"⟩

/-- `_handle_sendreminder` success response after the mail was sent. -/
def reminderSentResp (recipient : String) (expiring : List SubData) : CommandResponse :=
  ⟨true, "✅ **Reminder sent successfully!**\n\n📧 **Email sent to:** " ++ recipient ++
    "\n\n**Expiring subscriptions (" ++ toString expiring.length ++ "):**\n" ++
    String.intercalate "\n" (expiring.map (fun sub => "• " ++ sub.service ++ " - " ++ sub.expiry)) ++
    "\n\n💡 **Tip:** Check your email inbox (and spam folder) for the detailed reminder.",
    some (.expiringSubs expiring), none, "Markdown"⟩

/-- `_handle_upgrade` invalid-plan failure. -/
def upgradeInvalidResp (plan_type : String) (plans : List (String × Plan)) : CommandResponse :=
  ⟨false, "❌ **Invalid plan:** `" ++
    (plan_type ++ ("`\n\n**Available plans:**\n" ++
      (String.intercalate ", " ((plans.map (·.1)).map (fun p => "`" ++ p ++ "`")) ++
        "\n\nUse `/upgrade` to see all plan details."))),
    none, none, "Markdown"⟩

/-- `_handle_upgrade` local fault barrier: `str(e)` untruncated. -/
def upgradeErrResp (e : String) : CommandResponse :=
  ⟨false, "❌ **Upgrade Error:** " ++
    (e ++ "\n\nPlease try again or contact support."), none, none, "Markdown"⟩

/-- `_handle_upgrade` success response for one plan. -/
def upgradePlanResp (plan_type current : String) (plan : Plan) : CommandResponse :=
  ⟨true, "💎 **" ++ plan.name ++ "**\n\n💰 **Price:** " ++ plan.price ++
    "\n📋 **Subscriptions:** " ++ toString plan.max_subscriptions ++ "\n\n**✨ Features:**\n" ++
    String.intercalate "\n" (plan.features.map (fun f => "• " ++ f)) ++ "\n\n" ++
    (if plan_type == current then "✅ **This is your current plan!**"
     else "🔗 **Contact admin to upgrade to this plan**"),
    some (.planInfo plan), some "/upgrade", "Markdown"⟩

/-- Per-plan blocks of the all-plans message. -/
def planBlocks (current : String) : List (String × Plan) → String
  | [] => ""
  | (n, p) :: t =>
    (if n == current then "**" ++ p.name ++ " (CURRENT)** ✅\n" else "**" ++ p.name ++ "**\n") ++
    "💰 " ++ p.price ++ "\n📋 " ++ toString p.max_subscriptions ++
    " subscriptions\n─────────────────\n" ++ planBlocks current t

/-- `_handle_upgrade` success response listing all plans. -/
def upgradeAllResp (plans : List (String × Plan)) (current : String) (cp : Plan) :
    CommandResponse :=
  ⟨true, "💎 **Available Subscription Plans**\n\nYour current plan: **" ++ cp.name ++
    "** ✅\n\n" ++ planBlocks current plans ++
    "\n💡 **Tips:**\n• Use `/upgrade plan_name` for details\n• Example: `/upgrade premium`\n• Contact admin for plan upgrades",
    some (.allPlans plans current), some "/upgrade", "Markdown"⟩

/-! ### The command handlers (`CommandProcessor._handle_*`)

Each handler returns its `CommandResponse` together with the list of
storage mutations it performed.  `_handle_start` is the one handler with
no local `try/except`, so it returns `Except`: a raised `KeyError`
propagates to the fault barrier of `process_command`. -/

/-- `_handle_start`: a `KeyError` on an unknown plan key or a missing
`max_subscriptions` key escapes the handler. -/
def _handle_start (plans : List (String × Plan)) (args : List String) (ud : UserData) :
    Except String (CommandResponse × List DbEffect) :=
  match plans.lookup ud.plan_type with
  | none => .error (keyErrStr ud.plan_type)
  | some plan =>
    match ud.max_subscriptions with
    | none => .error (keyErrStr "max_subscriptions")
    | some maxS => .ok (startResp ud plan.name maxS, [])

/-- `_handle_list`. -/
def _handle_list (w : World) (today : CalDate) (args : List String) (ud : UserData) :
    CommandResponse × List DbEffect :=
  match w.subsDb with
  | .error e => (errFetchingResp e, [])
  | .ok db =>
    match callerSubs db ud with
    | [] => (noSubsListResp, [])
    | s0 :: rest => (listOkResp today (s0 :: rest) s0, [])

/-- Python `' '.join(args[4:]) if len(args) > 4 else "0"`. -/
def joinAmount (rest : List String) : String :=
  match rest with
  | [] => "0"
  | _ => String.intercalate " " rest

/-- Quota check and insertion stage of `_handle_add`, entered once the
arguments passed local validation. -/
def addQuotaStage (plans : List (String × Plan)) (w : World) (today : CalDate)
    (u em sv ex amount : String) (ud : UserData) : CommandResponse × List DbEffect :=
  match w.subsDb with
  | .error e => (errAddingResp e, [])
  | .ok db =>
    if (ud.max_subscriptions.getD 5) ≠ 999999 ∧
        ((callerSubs db ud).length : Int) ≥ ud.max_subscriptions.getD 5 then
      match plans.lookup ud.plan_type with
      | none => (errAddingResp (keyErrStr ud.plan_type), [])
      | some plan =>
        (quotaResp plan.name (ud.max_subscriptions.getD 5) (callerSubs db ud).length, [])
    else
      match w.insertResult with
      | .error e => (errAddingResp e, [])
      | .ok newId =>
        (addSuccessResp u em sv ex amount newId (newSubData u em sv ex amount ud today),
         [.insert "subscriptions" (newSubData u em sv ex amount ud today)])

/-- `_handle_add`. -/
def _handle_add (plans : List (String × Plan)) (w : World) (today : CalDate)
    (args : List String) (ud : UserData) : CommandResponse × List DbEffect :=
  match args with
  | u :: em :: sv :: ex :: rest =>
    if !pyHasChar em '@' || !pyHasChar em '.' then (invalidEmailResp, [])
    else
      match strptimeYMD ex with
      | none => (invalidDateResp, [])
      | some d =>
        if dateLt d today then (pastDateResp, [])
        else addQuotaStage plans w today u em sv ex (joinAmount rest) ud
  | _ => (addMissingResp, [])

/-- The match predicate of `_handle_delete`: exact id or prefix. -/
def deleteMatches (sub_id : String) (sub : Doc) : Bool :=
  sub.id == sub_id || pyStartsWith sub.id sub_id

/-- `_handle_delete`. -/
def _handle_delete (w : World) (args : List String) (ud : UserData) :
    CommandResponse × List DbEffect :=
  match args with
  | [] => (idRequiredResp, [])
  | sub_id :: _ =>
    match w.subsDb with
    | .error e => (deleteErrResp e, [])
    | .ok db =>
      match callerSubs db ud with
      | [] => (noSubsDeleteResp, [])
      | s0 :: rest =>
        match (s0 :: rest).find? (deleteMatches sub_id) with
        | some target =>
          match w.deleteResult with
          | .error e => (deleteErrResp e, [])
          | .ok _ => (deleteSuccessResp target, [.delete "subscriptions" target.id])
        | none => (notFoundResp sub_id (s0 :: rest), [])

/-- The match predicate of `_handle_search` (`search_query` already
lower-cased). -/
def searchPred (search_query : String) (d : Doc) : Bool :=
  pyInStr search_query (pyLower d.data.username) ||
  pyInStr search_query (pyLower d.data.email) ||
  pyInStr search_query (pyLower d.data.service)

/-- `_handle_search`. -/
def _handle_search (w : World) (today : CalDate) (args : List String) (ud : UserData) :
    CommandResponse × List DbEffect :=
  match args with
  | [] => (kwRequiredResp, [])
  | a0 :: _ =>
    match w.subsDb with
    | .error e => (searchErrResp e, [])
    | .ok db =>
      match callerSubs db ud with
      | [] => (emptySearchResp, [])
      | s0 :: rest =>
        match (s0 :: rest).filter (searchPred (pyLower a0)) with
        | [] => (noMatchResp a0 (s0 :: rest).length, [])
        | m0 :: ms => (searchOkResp today a0 (m0 :: ms) (s0 :: rest).length, [])

/-- `_handle_help` (its `try/except` cannot trigger: the body only reads
the static registry). -/
def _handle_help (args : List String) (ud : UserData) : CommandResponse × List DbEffect :=
  match args with
  | [] => (helpGeneralResp (ud.role.getD "free") (get_commands_for_role (ud.role.getD "free")), [])
  | a0 :: _ =>
    if a0 == "" then
      (helpGeneralResp (ud.role.getD "free") (get_commands_for_role (ud.role.getD "free")), [])
    else
      match get_command (pyLower a0) with
      | none => (helpNotFoundResp a0 (get_commands_for_role (ud.role.getD "free")), [])
      | some cd =>
        if ((get_commands_for_role (ud.role.getD "free")).map (·.1)).contains (pyLower a0) then
          (helpCmdResp (pyLower a0) cd, [])
        else (helpNotFoundResp a0 (get_commands_for_role (ud.role.getD "free")), [])

/-- `_handle_stats`: the faults its local barrier can catch, in raise
order — stream failure, unknown plan key, missing `role` key, missing
`max_subscriptions` key, division by a zero quota. -/
def _handle_stats (plans : List (String × Plan)) (w : World) (today : CalDate)
    (args : List String) (ud : UserData) : CommandResponse × List DbEffect :=
  match w.subsDb with
  | .error e => (statsErrResp e, [])
  | .ok db =>
    match plans.lookup ud.plan_type with
    | none => (statsErrResp (keyErrStr ud.plan_type), [])
    | some plan =>
      match ud.role with
      | none => (statsErrResp (keyErrStr "role"), [])
      | some role =>
        match ud.max_subscriptions with
        | none => (statsErrResp (keyErrStr "max_subscriptions"), [])
        | some maxS =>
          if maxS == 0 then (statsErrResp "division by zero", [])
          else (statsOkResp ud plan role maxS (callerSubs db ud) today, [])

/-- The 0-to-7-day expiring filter of `_handle_sendreminder` (rows whose
expiry fails to parse are skipped by its inner `except: continue`). -/
def expiringFilter (today : CalDate) (subs : List Doc) : List SubData :=
  (subs.filter (fun d =>
    match strptimeYMD d.data.expiry with
    | some ed => decide (0 ≤ daysLeft ed today ∧ daysLeft ed today ≤ 7)
    | none => false)).map (·.data)

/-- `_handle_sendreminder`. -/
def _handle_sendreminder (w : World) (today : CalDate) (args : List String) (ud : UserData) :
    CommandResponse × List DbEffect :=
  match w.subsDb with
  | .error e => (reminderErrResp e, [])
  | .ok db =>
    match expiringFilter today (callerSubs db ud) with
    | [] => (reminderNoneResp, [])
    | s0 :: rest =>
      match w.mailResult with
      | .error e => (reminderErrResp e, [])
      | .ok _ => (reminderSentResp s0.email (s0 :: rest), [])

/-- All-plans branch of `_handle_upgrade`; an unknown current plan key
raises a `KeyError` caught by the local barrier. -/
def upgradeAll (plans : List (String × Plan)) (current : String) :
    CommandResponse × List DbEffect :=
  match plans.lookup current with
  | none => (upgradeErrResp (keyErrStr current), [])
  | some cp => (upgradeAllResp plans current cp, [])

/-- `_handle_upgrade`. -/
def _handle_upgrade (plans : List (String × Plan)) (args : List String) (ud : UserData) :
    CommandResponse × List DbEffect :=
  match args with
  | [] => upgradeAll plans ud.plan_type
  | a0 :: _ =>
    if a0 == "" then upgradeAll plans ud.plan_type
    else
      match plans.lookup (pyLower a0) with
      | none => (upgradeInvalidResp (pyLower a0) plans, [])
      | some plan => (upgradePlanResp (pyLower a0) ud.plan_type plan, [])

/-! ### `CommandProcessor.process_command` -/

/-- The `_handle_*` methods defined on `CommandProcessor` (the targets of
`hasattr(self, f"_handle_{command_name}")`).  There is no
`_handle_promote` and no `_handle_forcedreminder`. -/
def methodNames : List String :=
  ["_handle_start", "_handle_list", "_handle_add", "_handle_delete", "_handle_search",
   "_handle_help", "_handle_stats", "_handle_sendreminder", "_handle_upgrade"]

/-- `hasattr(self, f"_handle_{command_name}")`. -/
def hasHandler (command_name : String) : Bool :=
  methodNames.contains ("_handle_" ++ command_name)

/-- `getattr(self, handler_method)(args, user_data)`.  The final arm is
unreachable under `hasHandler command_name = true`. -/
def dispatch (plans : List (String × Plan)) (w : World) (today : CalDate)
    (command_name : String) (args : List String) (ud : UserData) :
    Except String (CommandResponse × List DbEffect) :=
  match command_name with
  | "start" => _handle_start plans args ud
  | "list" => .ok (_handle_list w today args ud)
  | "add" => .ok (_handle_add plans w today args ud)
  | "delete" => .ok (_handle_delete w args ud)
  | "search" => .ok (_handle_search w today args ud)
  | "help" => .ok (_handle_help args ud)
  | "stats" => .ok (_handle_stats plans w today args ud)
  | "sendreminder" => .ok (_handle_sendreminder w today args ud)
  | "upgrade" => .ok (_handle_upgrade plans args ud)
  | other => .ok (notImplResp other, [])

/-- The routing stage of `process_command` after authorization: the
`hasattr` test, the dynamic dispatch, and the top-level `except` barrier
converting an escaped fault into `errProcessingResp`. -/
def handlerStage (plans : List (String × Plan)) (w : World) (today : CalDate)
    (command_name : String) (args : List String) (ud : UserData) :
    CommandResponse × List DbEffect :=
  if hasHandler command_name then
    match dispatch plans w today command_name args ud with
    | .ok res => res
    | .error e => (errProcessingResp e, [])
  else (notImplResp command_name, [])

/-- `process_command(command_name, args, user_data)`: resolve the
definition (case-insensitively), authorize by membership of
`user_data.get('role', 'free')` in the definition's `permissions`, then
route.  Note that no arity validation happens here: dispatch follows
authorization directly. -/
def process_command (plans : List (String × Plan)) (w : World) (today : CalDate)
    (command_name : String) (args : List String) (ud : UserData) :
    CommandResponse × List DbEffect :=
  match get_command command_name with
  | none => (unknownCmdResp command_name, [])
  | some cmd_def =>
    if cmd_def.permissions.contains (ud.role.getD "free") then
      handlerStage plans w today command_name args ud
    else (permissionDeniedResp (ud.role.getD "free") cmd_def.permissions, [])

/-! ### Concrete fixtures used by witnesses and counterexamples -/

/-- A free-plan caller with the default quota. -/
def udFree : UserData :=
  ⟨"FREE12345678", "john", some "chat1", "free", some "free", some 5, none⟩

/-- A world with an empty store and succeeding collaborators. -/
def wEmpty : World := ⟨.ok [], .ok "NEWDOC9876", .ok (), .ok ()⟩

/-- A concrete reference date used as `today` in witnesses. -/
def day0 : CalDate := ⟨2025, 6, 1⟩

/-- A stored subscription document. -/
def docA : Doc :=
  ⟨"abc12345XYZ", ⟨"john_netflix", "john@gmail.com", "Netflix", "2025-06-04", "299",
    some "chat1", ⟨2025, 1, 1⟩, "Added via unified command processor"⟩⟩

/-- A second stored subscription document, sharing the id prefix `ab`. -/
def docB : Doc :=
  ⟨"abQQQQQQQQ", ⟨"jane_spotify", "jane@gmail.com", "Spotify", "2025-05-31", "bad",
    some "chat1", ⟨2025, 1, 1⟩, "Added via unified command processor"⟩⟩

/-- A document owned by a different chat id. -/
def docOther : Doc :=
  ⟨"zzz99999", ⟨"mary_prime", "mary@gmail.com", "Prime", "2026-01-01", "100",
    some "chat2", ⟨2025, 1, 1⟩, "Added via unified command processor"⟩⟩

/-- A world whose store holds `docA`, `docB` and a foreign document. -/
def wTwo : World := ⟨.ok [docA, docB, docOther], .ok "NEWDOC9876", .ok (), .ok ()⟩

/-- Five stored documents for the same caller (for the quota witness). -/
def fiveDocs : List Doc :=
  [⟨"id1", ⟨"u1", "a@b.c", "S1", "2026-01-01", "0", some "chat1", ⟨2025, 1, 1⟩,
      "Added via unified command processor"⟩⟩,
   ⟨"id2", ⟨"u2", "a@b.c", "S2", "2026-01-01", "0", some "chat1", ⟨2025, 1, 1⟩,
      "Added via unified command processor"⟩⟩,
   ⟨"id3", ⟨"u3", "a@b.c", "S3", "2026-01-01", "0", some "chat1", ⟨2025, 1, 1⟩,
      "Added via unified command processor"⟩⟩,
   ⟨"id4", ⟨"u4", "a@b.c", "S4", "2026-01-01", "0", some "chat1", ⟨2025, 1, 1⟩,
      "Added via unified command processor"⟩⟩,
   ⟨"id5", ⟨"u5", "a@b.c", "S5", "2026-01-01", "0", some "chat1", ⟨2025, 1, 1⟩,
      "Added via unified command processor"⟩⟩]

/-- A world whose store holds the five documents. -/
def wFive : World := ⟨.ok fiveDocs, .ok "NEWDOC9876", .ok (), .ok ()⟩

/-- A 150-character fault text. -/
def e150 : String := ⟨List.replicate 150 'x'⟩

/-- A world whose subscription stream raises a 150-character fault. -/
def wFault : World := ⟨.error e150, .ok "NEWDOC9876", .ok (), .ok ()⟩

/-- A caller whose plan key resolves to no entry of the plan table. -/
def udBogus : UserData :=
  ⟨"FREE00000001", "kira", some "chat1", "bogus", some "free", some 5, none⟩

/-- A caller holding the unlimited-quota sentinel. -/
def udUnlim : UserData :=
  ⟨"USER00000002", "sam", some "chat1", "yearly_unlimited", some "user", some 999999, none⟩

/-- The five characters that open every permission-denied message. -/
def permHead5 : List Char := ['❌', ' ', '*', '*', 'P']

/-! ### Helper lemmas -/

theorem data_append (a b : String) : (a ++ b).data = a.data ++ b.data := rfl

theorem take_of_append (p x : String) (n : Nat) (h : n ≤ p.data.length) :
    (p ++ x).data.take n = p.data.take n := by
  rw [data_append]; exact List.take_append_of_le_length h

theorem perm_take5 (r : String) (ps : List String) :
    (permissionDeniedResp r ps).message.data.take 5 = permHead5 := by
  show (("❌ **Permission denied**\n\nYou don\x27t have permission to use this command.\n\nYour role: `" : String) ++ _).data.take 5 = _
  rw [take_of_append _ _ _ (by decide)]
  decide

theorem ne_perm_of_take5 (resp : CommandResponse)
    (h : resp.message.data.take 5 ≠ permHead5) :
    ∀ r ps, resp ≠ permissionDeniedResp r ps :=
  fun r ps e => h (by rw [e]; exact perm_take5 r ps)

theorem ne_perm_of_success (resp : CommandResponse) (h : resp.success = true) :
    ∀ r ps, resp ≠ permissionDeniedResp r ps :=
  fun _ _ e => by rw [e] at h; exact Bool.false_ne_true h

theorem notImpl_take5 (c : String) :
    (notImplResp c).message.data.take 5 = ['❌', ' ', 'C', 'o', 'm'] := by
  show (("❌ Command handler not implemented: `" : String) ++ _).data.take 5 = _
  rw [take_of_append _ _ _ (by decide)]; decide

theorem errProcessing_take5 (e : String) :
    (errProcessingResp e).message.data.take 5 = ['❌', ' ', '*', '*', 'E'] := by
  show (("❌ **Error processing command:** " : String) ++ _).data.take 5 = _
  rw [take_of_append _ _ _ (by decide)]; decide

theorem errFetching_take5 (e : String) :
    (errFetchingResp e).message.data.take 5 = ['❌', ' ', '*', '*', 'E'] := by
  show (("❌ **Error fetching subscriptions:** " : String) ++ _).data.take 5 = _
  rw [take_of_append _ _ _ (by decide)]; decide

theorem quota_take5 (pn : String) (m : Int) (c : Nat) :
    (quotaResp pn m c).message.data.take 5 = ['❌', ' ', '*', '*', 'S'] := by
  show (("❌ **Subscription limit reached!**\n\n**Current plan:** " : String) ++ _).data.take 5 = _
  rw [take_of_append _ _ _ (by decide)]; decide

theorem errAdding_take5 (e : String) :
    (errAddingResp e).message.data.take 5 = ['❌', ' ', '*', '*', 'E'] := by
  show (("❌ **Error adding subscription:** " : String) ++ _).data.take 5 = _
  rw [take_of_append _ _ _ (by decide)]; decide

theorem notFound_take5 (i : String) (s : List Doc) :
    (notFoundResp i s).message.data.take 5 = ['❌', ' ', '*', '*', 'S'] := by
  show (("❌ **Subscription not found!**\n\n🔍 **Searched for:** `" : String) ++ _).data.take 5 = _
  rw [take_of_append _ _ _ (by decide)]; decide

theorem deleteErr_take5 (e : String) :
    (deleteErrResp e).message.data.take 5 = ['❌', ' ', '*', '*', 'D'] := by
  show (("❌ **Delete Error:** " : String) ++ _).data.take 5 = _
  rw [take_of_append _ _ _ (by decide)]; decide

theorem searchErr_take5 (e : String) :
    (searchErrResp e).message.data.take 5 = ['❌', ' ', '*', '*', 'S'] := by
  show (("❌ **Search Error:** " : String) ++ _).data.take 5 = _
  rw [take_of_append _ _ _ (by decide)]; decide

theorem helpNotFound_take5 (a : String) (av : List (String × CommandDefinition)) :
    (helpNotFoundResp a av).message.data.take 5 = ['❌', ' ', '*', '*', 'C'] := by
  show (("❌ **Command not found:** `" : String) ++ _).data.take 5 = _
  rw [take_of_append _ _ _ (by decide)]; decide

theorem statsErr_take5 (e : String) :
    (statsErrResp e).message.data.take 5 = ['❌', ' ', '*', '*', 'S'] := by
  show (("❌ **Stats Error:** " : String) ++ _).data.take 5 = _
  rw [take_of_append _ _ _ (by decide)]; decide

theorem reminderErr_take5 (e : String) :
    (reminderErrResp e).message.data.take 5 = ['❌', ' ', '*', '*', 'R'] := by
  show (("❌ **Reminder Error:** " : String) ++ _).data.take 5 = _
  rw [take_of_append _ _ _ (by decide)]; decide

theorem upgradeInvalid_take5 (p : String) (ps : List (String × Plan)) :
    (upgradeInvalidResp p ps).message.data.take 5 = ['❌', ' ', '*', '*', 'I'] := by
  show (("❌ **Invalid plan:** `" : String) ++ _).data.take 5 = _
  rw [take_of_append _ _ _ (by decide)]; decide

theorem upgradeErr_take5 (e : String) :
    (upgradeErrResp e).message.data.take 5 = ['❌', ' ', '*', '*', 'U'] := by
  show (("❌ **Upgrade Error:** " : String) ++ _).data.take 5 = _
  rw [take_of_append _ _ _ (by decide)]; decide
theorem list_ne_perm (w : World) (today : CalDate) (args : List String) (ud : UserData)
    (r : String) (ps : List String) :
    (_handle_list w today args ud).1 ≠ permissionDeniedResp r ps := by
  unfold _handle_list
  split
  · exact ne_perm_of_take5 _ (by rw [errFetching_take5]; decide) r ps
  · split
    · exact ne_perm_of_success _ rfl r ps
    · exact ne_perm_of_success _ rfl r ps

theorem addQuotaStage_ne_perm (plans : List (String × Plan)) (w : World) (today : CalDate)
    (u em sv ex amount : String) (ud : UserData) (r : String) (ps : List String) :
    (addQuotaStage plans w today u em sv ex amount ud).1 ≠ permissionDeniedResp r ps := by
  unfold addQuotaStage
  split
  · exact ne_perm_of_take5 _ (by rw [errAdding_take5]; decide) r ps
  · split
    · split
      · exact ne_perm_of_take5 _ (by rw [errAdding_take5]; decide) r ps
      · exact ne_perm_of_take5 _ (by rw [quota_take5]; decide) r ps
    · split
      · exact ne_perm_of_take5 _ (by rw [errAdding_take5]; decide) r ps
      · exact ne_perm_of_success _ rfl r ps

theorem add_ne_perm (plans : List (String × Plan)) (w : World) (today : CalDate)
    (args : List String) (ud : UserData) (r : String) (ps : List String) :
    (_handle_add plans w today args ud).1 ≠ permissionDeniedResp r ps := by
  unfold _handle_add
  split
  · split
    · exact ne_perm_of_take5 _ (by decide) r ps
    · split
      · exact ne_perm_of_take5 _ (by decide) r ps
      · split
        · exact ne_perm_of_take5 _ (by decide) r ps
        · exact addQuotaStage_ne_perm plans w today _ _ _ _ _ ud r ps
  · exact ne_perm_of_take5 _ (by decide) r ps

theorem delete_ne_perm (w : World) (args : List String) (ud : UserData)
    (r : String) (ps : List String) :
    (_handle_delete w args ud).1 ≠ permissionDeniedResp r ps := by
  unfold _handle_delete
  split
  · exact ne_perm_of_take5 _ (by decide) r ps
  · split
    · exact ne_perm_of_take5 _ (by rw [deleteErr_take5]; decide) r ps
    · split
      · exact ne_perm_of_take5 _ (by decide) r ps
      · split
        · split
          · exact ne_perm_of_take5 _ (by rw [deleteErr_take5]; decide) r ps
          · exact ne_perm_of_success _ rfl r ps
        · exact ne_perm_of_take5 _ (by rw [notFound_take5]; decide) r ps

theorem search_ne_perm (w : World) (today : CalDate) (args : List String) (ud : UserData)
    (r : String) (ps : List String) :
    (_handle_search w today args ud).1 ≠ permissionDeniedResp r ps := by
  unfold _handle_search
  split
  · exact ne_perm_of_take5 _ (by decide) r ps
  · split
    · exact ne_perm_of_take5 _ (by rw [searchErr_take5]; decide) r ps
    · split
      · exact ne_perm_of_success _ rfl r ps
      · split
        · exact ne_perm_of_success _ rfl r ps
        · exact ne_perm_of_success _ rfl r ps

theorem help_ne_perm (args : List String) (ud : UserData) (r : String) (ps : List String) :
    (_handle_help args ud).1 ≠ permissionDeniedResp r ps := by
  unfold _handle_help
  split
  · exact ne_perm_of_success _ rfl r ps
  · split
    · exact ne_perm_of_success _ rfl r ps
    · split
      · exact ne_perm_of_take5 _ (by rw [helpNotFound_take5]; decide) r ps
      · split
        · exact ne_perm_of_success _ rfl r ps
        · exact ne_perm_of_take5 _ (by rw [helpNotFound_take5]; decide) r ps

theorem stats_ne_perm (plans : List (String × Plan)) (w : World) (today : CalDate)
    (args : List String) (ud : UserData) (r : String) (ps : List String) :
    (_handle_stats plans w today args ud).1 ≠ permissionDeniedResp r ps := by
  unfold _handle_stats
  split
  · exact ne_perm_of_take5 _ (by rw [statsErr_take5]; decide) r ps
  · split
    · exact ne_perm_of_take5 _ (by rw [statsErr_take5]; decide) r ps
    · split
      · exact ne_perm_of_take5 _ (by rw [statsErr_take5]; decide) r ps
      · split
        · exact ne_perm_of_take5 _ (by rw [statsErr_take5]; decide) r ps
        · split
          · exact ne_perm_of_take5 _ (by rw [statsErr_take5]; decide) r ps
          · exact ne_perm_of_success _ rfl r ps

theorem sendreminder_ne_perm (w : World) (today : CalDate) (args : List String)
    (ud : UserData) (r : String) (ps : List String) :
    (_handle_sendreminder w today args ud).1 ≠ permissionDeniedResp r ps := by
  unfold _handle_sendreminder
  split
  · exact ne_perm_of_take5 _ (by rw [reminderErr_take5]; decide) r ps
  · split
    · exact ne_perm_of_success _ rfl r ps
    · split
      · exact ne_perm_of_take5 _ (by rw [reminderErr_take5]; decide) r ps
      · exact ne_perm_of_success _ rfl r ps

theorem upgradeAll_ne_perm (plans : List (String × Plan)) (current : String)
    (r : String) (ps : List String) :
    (upgradeAll plans current).1 ≠ permissionDeniedResp r ps := by
  unfold upgradeAll
  split
  · exact ne_perm_of_take5 _ (by rw [upgradeErr_take5]; decide) r ps
  · exact ne_perm_of_success _ rfl r ps

theorem upgrade_ne_perm (plans : List (String × Plan)) (args : List String) (ud : UserData)
    (r : String) (ps : List String) :
    (_handle_upgrade plans args ud).1 ≠ permissionDeniedResp r ps := by
  unfold _handle_upgrade
  split
  · exact upgradeAll_ne_perm plans _ r ps
  · split
    · exact upgradeAll_ne_perm plans _ r ps
    · split
      · exact ne_perm_of_take5 _ (by rw [upgradeInvalid_take5]; decide) r ps
      · exact ne_perm_of_success _ rfl r ps
theorem dispatch_ok_ne_perm (plans : List (String × Plan)) (w : World) (today : CalDate)
    (name : String) (args : List String) (ud : UserData)
    (res : CommandResponse × List DbEffect)
    (h : dispatch plans w today name args ud = .ok res) (r : String) (ps : List String) :
    res.1 ≠ permissionDeniedResp r ps := by
  unfold dispatch at h
  split at h
  · unfold _handle_start at h
    split at h
    · exact absurd h (by simp)
    · split at h
      · exact absurd h (by simp)
      · injection h with h'; rw [← h']; exact ne_perm_of_success _ rfl r ps
  · injection h with h'; rw [← h']; exact list_ne_perm w today args ud r ps
  · injection h with h'; rw [← h']; exact add_ne_perm plans w today args ud r ps
  · injection h with h'; rw [← h']; exact delete_ne_perm w args ud r ps
  · injection h with h'; rw [← h']; exact search_ne_perm w today args ud r ps
  · injection h with h'; rw [← h']; exact help_ne_perm args ud r ps
  · injection h with h'; rw [← h']; exact stats_ne_perm plans w today args ud r ps
  · injection h with h'; rw [← h']; exact sendreminder_ne_perm w today args ud r ps
  · injection h with h'; rw [← h']; exact upgrade_ne_perm plans args ud r ps
  · injection h with h'; rw [← h']
    exact ne_perm_of_take5 _ (by rw [notImpl_take5]; decide) r ps

theorem handlerStage_ne_perm (plans : List (String × Plan)) (w : World) (today : CalDate)
    (name : String) (args : List String) (ud : UserData) (r : String) (ps : List String) :
    (handlerStage plans w today name args ud).1 ≠ permissionDeniedResp r ps := by
  unfold handlerStage
  split
  · split
    · next res heq => exact dispatch_ok_ne_perm plans w today name args ud res heq r ps
    · exact ne_perm_of_take5 _ (by rw [errProcessing_take5]; decide) r ps
  · exact ne_perm_of_take5 _ (by rw [notImpl_take5]; decide) r ps

theorem process_auth (plans : List (String × Plan)) (w : World) (today : CalDate)
    (name : String) (args : List String) (ud : UserData) (cmd : CommandDefinition)
    (hg : get_command name = some cmd)
    (hc : cmd.permissions.contains (ud.role.getD "free") = true) :
    process_command plans w today name args ud = handlerStage plans w today name args ud := by
  unfold process_command
  rw [hg]
  show (if cmd.permissions.contains (ud.role.getD "free") = true then
      handlerStage plans w today name args ud
    else (permissionDeniedResp (ud.role.getD "free") cmd.permissions, [])) =
    handlerStage plans w today name args ud
  rw [if_pos hc]

theorem process_unauth (plans : List (String × Plan)) (w : World) (today : CalDate)
    (name : String) (args : List String) (ud : UserData) (cmd : CommandDefinition)
    (hg : get_command name = some cmd)
    (hc : cmd.permissions.contains (ud.role.getD "free") = false) :
    process_command plans w today name args ud =
      (permissionDeniedResp (ud.role.getD "free") cmd.permissions, []) := by
  unfold process_command
  rw [hg]
  show (if cmd.permissions.contains (ud.role.getD "free") = true then
      handlerStage plans w today name args ud
    else (permissionDeniedResp (ud.role.getD "free") cmd.permissions, [])) =
    (permissionDeniedResp (ud.role.getD "free") cmd.permissions, [])
  rw [if_neg (by rw [hc]; exact Bool.false_ne_true)]
/-- Claim C2: for a registered command `cmd` reached through `execute`
(`process_command`) by a caller whose identity carries role `r`, the
result is the permission-denied failure envelope (naming the role and the
accepted roles) exactly when `r` is not a member of the definition's
`permissions` list; the test is list membership, not a rank comparison
against the `USER_ROLES` table. -/
theorem execute_permission_denied_iff (plans : List (String × Plan)) (w : World)
    (today : CalDate) (name : String) (args : List String) (ud : UserData) (r : String)
    (cmd : CommandDefinition) (hg : get_command name = some cmd) (hr : ud.role = some r) :
    (process_command plans w today name args ud).1 =
      permissionDeniedResp r cmd.permissions ↔ cmd.permissions.contains r = false := by
  have hgd : ud.role.getD "free" = r := by rw [hr]; rfl
  constructor
  · intro h
    cases hcc : cmd.permissions.contains r with
    | false => rfl
    | true =>
      rw [process_auth plans w today name args ud cmd hg (by rw [hgd]; exact hcc)] at h
      exact absurd h (handlerStage_ne_perm plans w today name args ud r cmd.permissions)
  · intro hc
    rw [process_unauth plans w today name args ud cmd hg (by rw [hgd]; exact hc), hgd]

/-- Witness for C2 at the `stats` command and the `free` role, which the
definition does not accept. -/
theorem execute_permission_denied_iff_witness :
    ((process_command SUBSCRIPTION_PLANS wEmpty day0 "stats" [] udFree).1 =
      permissionDeniedResp "free" statsDef.permissions ↔
      statsDef.permissions.contains "free" = false) :=
  execute_permission_denied_iff SUBSCRIPTION_PLANS wEmpty day0 "stats" [] udFree "free"
    statsDef (by decide) rfl
/-- Claim C10: the registry defines `promote` and `forcedreminder`, but the
processor has no `_handle_promote` / `_handle_forcedreminder` method, so
the `hasattr` test fails and every authorized invocation receives the
handler-not-implemented failure envelope; no invocation of these commands
can ever succeed, and the string-formatted dispatch never raises. -/
theorem promote_forcedreminder_never_succeed (plans : List (String × Plan)) (w : World)
    (today : CalDate) (args : List String) (ud : UserData) (r : String)
    (hr : ud.role = some r) :
    hasHandler "promote" = false ∧ hasHandler "forcedreminder" = false ∧
    (process_command plans w today "promote" args ud).1.success = false ∧
    (process_command plans w today "forcedreminder" args ud).1.success = false ∧
    (promoteDef.permissions.contains r = true →
      process_command plans w today "promote" args ud = (notImplResp "promote", [])) ∧
    (forcedreminderDef.permissions.contains r = true →
      process_command plans w today "forcedreminder" args ud =
        (notImplResp "forcedreminder", [])) := by
  have hgd : ud.role.getD "free" = r := by rw [hr]; rfl
  have hgp : get_command "promote" = some promoteDef := by decide
  have hgf : get_command "forcedreminder" = some forcedreminderDef := by decide
  have hsp : hasHandler "promote" = false := by decide
  have hsf : hasHandler "forcedreminder" = false := by decide
  have stagep : handlerStage plans w today "promote" args ud = (notImplResp "promote", []) := by
    unfold handlerStage
    rw [if_neg (by rw [hsp]; exact Bool.false_ne_true)]
  have stagef : handlerStage plans w today "forcedreminder" args ud =
      (notImplResp "forcedreminder", []) := by
    unfold handlerStage
    rw [if_neg (by rw [hsf]; exact Bool.false_ne_true)]
  refine ⟨hsp, hsf, ?_, ?_, ?_, ?_⟩
  · cases hcc : promoteDef.permissions.contains (ud.role.getD "free") with
    | false => rw [process_unauth plans w today "promote" args ud promoteDef hgp hcc]; rfl
    | true => rw [process_auth plans w today "promote" args ud promoteDef hgp hcc, stagep]; rfl
  · cases hcc : forcedreminderDef.permissions.contains (ud.role.getD "free") with
    | false =>
      rw [process_unauth plans w today "forcedreminder" args ud forcedreminderDef hgf hcc]; rfl
    | true =>
      rw [process_auth plans w today "forcedreminder" args ud forcedreminderDef hgf hcc,
        stagef]; rfl
  · intro hcp
    rw [process_auth plans w today "promote" args ud promoteDef hgp (by rw [hgd]; exact hcp),
      stagep]
  · intro hcf
    rw [process_auth plans w today "forcedreminder" args ud forcedreminderDef hgf
      (by rw [hgd]; exact hcf), stagef]

/-- Witness for C10: an admin caller invoking `promote` and
`forcedreminder` with well-formed arguments. -/
theorem promote_forcedreminder_never_succeed_witness :
    hasHandler "promote" = false ∧ hasHandler "forcedreminder" = false ∧
    (process_command SUBSCRIPTION_PLANS wEmpty day0 "promote" ["FREE12345678", "manager"]
      (UserData.mk "ADMIN0001" "boss" (some "chat9") "premium" (some "admin") (some 30) none)).1.success = false ∧
    (process_command SUBSCRIPTION_PLANS wEmpty day0 "forcedreminder" []
      (UserData.mk "ADMIN0001" "boss" (some "chat9") "premium" (some "admin") (some 30) none)).1.success = false ∧
    (promoteDef.permissions.contains "admin" = true →
      process_command SUBSCRIPTION_PLANS wEmpty day0 "promote" ["FREE12345678", "manager"]
        (UserData.mk "ADMIN0001" "boss" (some "chat9") "premium" (some "admin") (some 30) none) =
        (notImplResp "promote", [])) ∧
    (forcedreminderDef.permissions.contains "admin" = true →
      process_command SUBSCRIPTION_PLANS wEmpty day0 "forcedreminder" []
        (UserData.mk "ADMIN0001" "boss" (some "chat9") "premium" (some "admin") (some 30) none) =
        (notImplResp "forcedreminder", [])) := by
  constructor
  · decide
  constructor
  · decide
  have h1 := promote_forcedreminder_never_succeed SUBSCRIPTION_PLANS wEmpty day0
    ["FREE12345678", "manager"]
    (UserData.mk "ADMIN0001" "boss" (some "chat9") "premium" (some "admin") (some 30) none)
    "admin" rfl
  have h2 := promote_forcedreminder_never_succeed SUBSCRIPTION_PLANS wEmpty day0 []
    (UserData.mk "ADMIN0001" "boss" (some "chat9") "premium" (some "admin") (some 30) none)
    "admin" rfl
  exact ⟨h1.2.2.1, h2.2.2.2.1, h1.2.2.2.2.1, h2.2.2.2.2.2⟩
/-- Counterexample to claim C1: `/search a b` fails the registry arity
check (`search` takes exactly one argument), yet `process_command`
dispatches to the handler anyway and returns the handler's SUCCESS
envelope — not an invalid-arguments failure with help text. -/
theorem arity_bypass_counterexample :
    validate_command_args "search" ["a", "b"] = (false, "Too many arguments. Maximum: 1") ∧
    (process_command SUBSCRIPTION_PLANS wEmpty day0 "search" ["a", "b"] udFree).1 =
      emptySearchResp ∧
    (process_command SUBSCRIPTION_PLANS wEmpty day0 "search" ["a", "b"] udFree).1.success =
      true := by
  refine ⟨by decide, by decide, by decide⟩

/-- Claim C1 (amended): `process_command` performs no arity validation at
all — `validate_command_args` is defined in the registry but never
invoked on the execute path.  Whenever the command resolves and the role
is authorized, execution proceeds to the dispatch stage (the handler, or
the not-implemented report) for every argument list, including ones the
registry check rejects; handlers do their own ad-hoc argument checks. -/
theorem execute_skips_arity_validation (plans : List (String × Plan)) (w : World)
    (today : CalDate) (name : String) (args : List String) (ud : UserData) (r : String)
    (cmd : CommandDefinition) (hg : get_command name = some cmd) (hr : ud.role = some r)
    (hc : cmd.permissions.contains r = true)
    (hv : (validate_command_args name args).1 = false) :
    process_command plans w today name args ud = handlerStage plans w today name args ud := by
  have hgd : ud.role.getD "free" = r := by rw [hr]; rfl
  exact process_auth plans w today name args ud cmd hg (by rw [hgd]; exact hc)

/-- Witness for the amended C1 at the arity-violating call `/search a b`. -/
theorem execute_skips_arity_validation_witness :
    process_command SUBSCRIPTION_PLANS wEmpty day0 "search" ["a", "b"] udFree =
      handlerStage SUBSCRIPTION_PLANS wEmpty day0 "search" ["a", "b"] udFree :=
  execute_skips_arity_validation SUBSCRIPTION_PLANS wEmpty day0 "search" ["a", "b"] udFree
    "free" searchDef (by decide) rfl (by decide) (by decide)

/-- Claim C3 (amended, part proved here): any fault that escapes a handler
is caught by the top-level barrier of `process_command` and converted to a
failure envelope whose diagnostic is `str(e)` truncated to at most 100
characters.  (The complementary counterexample shows the local handler
barriers do NOT truncate.) -/
theorem fault_barrier_truncates (plans : List (String × Plan)) (w : World)
    (today : CalDate) (name : String) (args : List String) (ud : UserData)
    (cmd : CommandDefinition) (e : String) (hg : get_command name = some cmd)
    (hc : cmd.permissions.contains (ud.role.getD "free") = true)
    (hh : hasHandler name = true)
    (hd : dispatch plans w today name args ud = .error e) :
    process_command plans w today name args ud = (errProcessingResp e, []) ∧
    (errProcessingResp e).message =
      "❌ **Error processing command:** " ++
        (pyTake e 100 ++ "\n\nPlease try again or contact support if the problem persists.") ∧
    (pyTake e 100).length ≤ 100 := by
  refine ⟨?_, rfl, ?_⟩
  · rw [process_auth plans w today name args ud cmd hg hc]
    unfold handlerStage
    rw [if_pos hh, hd]
  · show (e.data.take 100).length ≤ 100
    rw [List.length_take]
    exact min_le_left _ _

/-- Witness for the amended C3: a `KeyError` escaping `_handle_start`
(unknown plan key) reaches the top-level barrier. -/
theorem fault_barrier_truncates_witness :
    process_command SUBSCRIPTION_PLANS wEmpty day0 "start" [] udBogus =
      (errProcessingResp (keyErrStr "bogus"), []) ∧
    (errProcessingResp (keyErrStr "bogus")).message =
      "❌ **Error processing command:** " ++
        (pyTake (keyErrStr "bogus") 100 ++
          "\n\nPlease try again or contact support if the problem persists.") ∧
    (pyTake (keyErrStr "bogus") 100).length ≤ 100 :=
  fault_barrier_truncates SUBSCRIPTION_PLANS wEmpty day0 "start" [] udBogus startDef
    (keyErrStr "bogus") (by decide) (by decide) (by decide) rfl

set_option maxRecDepth 4000 in
/-- Counterexample to claim C3 as stated: a fault raised while fetching
subscriptions inside `_handle_list` is caught by the handler's LOCAL
`except`, which embeds the full 150-character `str(e)` in the envelope
untruncated — longer than the claimed ~100-character bound (truncation to
100 would have altered it). -/
theorem untruncated_diagnostic_counterexample :
    (process_command SUBSCRIPTION_PLANS wFault day0 "list" [] udFree).1 =
      errFetchingResp e150 ∧
    (errFetchingResp e150).message =
      "❌ **Error fetching subscriptions:** " ++
        (e150 ++ "\n\nPlease try again or contact support.") ∧
    e150.length = 150 ∧
    pyTake e150 100 ≠ e150 := by
  refine ⟨by decide, rfl, by decide, by decide⟩
/-- Claim C4: `validate_command_args` fails with the missing-arguments
diagnostic (which spells out the command's required-argument names, hence
every unmet one) exactly when fewer arguments than required are supplied;
fails with the too-many diagnostic exactly when the count exceeds
required+optional AND the command declares at least one argument (a
zero-argument command tolerates extra tokens); otherwise returns ok.  The
final conjunct checks, over the whole registry, that the three outcomes
are pairwise distinct and that every required-argument name occurs in the
missing diagnostic. -/
theorem validate_args_characterization :
    (∀ (name : String) (cmd : CommandDefinition) (args : List String),
      get_command name = some cmd →
      (args.length < (requiredArgsOf cmd).length →
        validate_command_args name args =
          (false, "Missing required arguments. Expected: " ++
            String.intercalate ", " (requiredArgsOf cmd))) ∧
      (¬ args.length < (requiredArgsOf cmd).length →
        (args.length > (requiredArgsOf cmd).length + (optionalArgsOf cmd).length ∧
            (requiredArgsOf cmd).length + (optionalArgsOf cmd).length > 0 →
          validate_command_args name args =
            (false, "Too many arguments. Maximum: " ++
              toString ((requiredArgsOf cmd).length + (optionalArgsOf cmd).length))) ∧
        (¬ (args.length > (requiredArgsOf cmd).length + (optionalArgsOf cmd).length ∧
            (requiredArgsOf cmd).length + (optionalArgsOf cmd).length > 0) →
          validate_command_args name args = (true, "Valid")))) ∧
    (∀ p ∈ COMMANDS,
      ("Missing required arguments. Expected: " ++
          String.intercalate ", " (requiredArgsOf p.2) ≠
        "Too many arguments. Maximum: " ++
          toString ((requiredArgsOf p.2).length + (optionalArgsOf p.2).length)) ∧
      ("Missing required arguments. Expected: " ++
          String.intercalate ", " (requiredArgsOf p.2) ≠ "Valid") ∧
      ("Too many arguments. Maximum: " ++
          toString ((requiredArgsOf p.2).length + (optionalArgsOf p.2).length) ≠ "Valid") ∧
      (∀ a ∈ requiredArgsOf p.2,
        pyInStr a ("Missing required arguments. Expected: " ++
          String.intercalate ", " (requiredArgsOf p.2)) = true)) := by
  constructor
  · intro name cmd args hg
    refine ⟨fun hlt => ?_, fun hnlt => ⟨fun hmany => ?_, fun hnmany => ?_⟩⟩
    · simp only [validate_command_args, hg]
      rw [if_pos hlt]
    · simp only [validate_command_args, hg]
      rw [if_neg hnlt, if_pos hmany]
    · simp only [validate_command_args, hg]
      rw [if_neg hnlt, if_neg hnmany]
  · decide

/-- Witness for C4: `/add` with two of its four required arguments yields
the missing-arguments failure naming all four. -/
theorem validate_args_characterization_witness :
    ¬ (2 : Nat) < 2 ∧
    validate_command_args "add" ["john", "j@g.c"] =
      (false, "Missing required arguments. Expected: " ++
        String.intercalate ", " (requiredArgsOf addDef)) ∧
    validate_command_args "start" ["extra", "tokens"] = (true, "Valid") :=
  ⟨by decide,
   (validate_args_characterization.1 "add" addDef ["john", "j@g.c"] (by decide)).1 (by decide),
   (((validate_args_characterization.1 "start" startDef ["extra", "tokens"]
      (by decide)).2 (by decide)).2) (by decide)⟩
/-- Claim C5: once the arguments of `/add` pass local validation, the
handler fails with the quota envelope (success = false, `/upgrade`
redirect) whenever the caller's stored subscription count is at or over
`max_subscriptions`, the check being skipped entirely when the quota
equals the 999999 sentinel — under the sentinel no invocation of
`_handle_add` can produce a quota-limit envelope (its message opens
`❌ **S`, a prefix no other branch of the handler emits). -/
theorem add_quota_enforcement :
    (∀ (plans : List (String × Plan)) (w : World) (today : CalDate)
        (u em sv ex : String) (rest : List String) (ud : UserData)
        (docs : List Doc) (d : CalDate) (plan : Plan),
      pyHasChar em '@' = true → pyHasChar em '.' = true →
      strptimeYMD ex = some d → dateLt d today = false →
      w.subsDb = .ok docs →
      plans.lookup ud.plan_type = some plan →
      ud.max_subscriptions.getD 5 ≠ 999999 →
      ((callerSubs docs ud).length : Int) ≥ ud.max_subscriptions.getD 5 →
      _handle_add plans w today (u :: em :: sv :: ex :: rest) ud =
        (quotaResp plan.name (ud.max_subscriptions.getD 5) (callerSubs docs ud).length, []) ∧
      (quotaResp plan.name (ud.max_subscriptions.getD 5)
        (callerSubs docs ud).length).success = false ∧
      (quotaResp plan.name (ud.max_subscriptions.getD 5)
        (callerSubs docs ud).length).web_redirect = some "/upgrade") ∧
    (∀ (plans : List (String × Plan)) (w : World) (today : CalDate)
        (args : List String) (ud : UserData),
      ud.max_subscriptions.getD 5 = 999999 →
      ¬ (_handle_add plans w today args ud).1.message.data.take 5 =
          ['❌', ' ', '*', '*', 'S']) := by
  constructor
  · intro plans w today u em sv ex rest ud docs d plan hat hdot hex hlt hdb hplan hsent hcount
    refine ⟨?_, rfl, rfl⟩
    simp only [_handle_add]
    rw [if_neg (by simp [hat, hdot])]
    rw [hex]
    simp only []
    rw [if_neg (by simp [hlt])]
    simp only [addQuotaStage]
    rw [hdb]
    simp only []
    rw [if_pos ⟨hsent, hcount⟩]
    rw [hplan]
  · intro plans w today args ud hsent
    unfold _handle_add
    split
    · split
      · intro h; rw [show invalidEmailResp.message.data.take 5 = ['❌', ' ', '*', '*', 'I']
          from by decide] at h; exact absurd h (by decide)
      · split
        · intro h; rw [show invalidDateResp.message.data.take 5 = ['❌', ' ', '*', '*', 'I']
            from by decide] at h; exact absurd h (by decide)
        · split
          · intro h; rw [show pastDateResp.message.data.take 5 = ['❌', ' ', '*', '*', 'E']
              from by decide] at h; exact absurd h (by decide)
          · unfold addQuotaStage
            split
            · intro h; rw [errAdding_take5] at h; exact absurd h (by decide)
            · split
              · next hcond =>
                exact absurd hsent hcond.1
              · split
                · intro h; rw [errAdding_take5] at h; exact absurd h (by decide)
                · intro h
                  rw [show ∀ a b c dd e f g, (addSuccessResp a b c dd e f g).message.data.take 5 =
                      ['✅', ' ', '*', '*', 'S'] from ?_] at h
                  · exact absurd h (by decide)
                  · intro a b c dd e f g
                    show (("✅ **Subscription Added Successfully!**\n\n🎬 **Service:** " : String)
                      ++ _).data.take 5 = _
                    rw [take_of_append _ _ _ (by decide)]; decide
    · intro h; rw [show addMissingResp.message.data.take 5 = ['❌', ' ', '*', '*', 'M']
        from by decide] at h; exact absurd h (by decide)

/-- Witness for C5: a free-plan caller (quota 5) with five stored
subscriptions and a valid `/add`, and a sentinel caller for whom no
quota envelope is possible. -/
theorem add_quota_enforcement_witness :
    (_handle_add SUBSCRIPTION_PLANS wFive day0 ["u6", "a@b.c", "S6", "2026-01-01"] udFree =
      (quotaResp (Plan.name ⟨"Free Plan", "₹0 (Lifetime)", 5, none,
        ["Up to 5 OTT subscriptions", "Basic reminders", "Telegram + Web access"]⟩)
        (udFree.max_subscriptions.getD 5) (callerSubs fiveDocs udFree).length, []) ∧
      (quotaResp (Plan.name ⟨"Free Plan", "₹0 (Lifetime)", 5, none,
        ["Up to 5 OTT subscriptions", "Basic reminders", "Telegram + Web access"]⟩)
        (udFree.max_subscriptions.getD 5) (callerSubs fiveDocs udFree).length).success = false ∧
      (quotaResp (Plan.name ⟨"Free Plan", "₹0 (Lifetime)", 5, none,
        ["Up to 5 OTT subscriptions", "Basic reminders", "Telegram + Web access"]⟩)
        (udFree.max_subscriptions.getD 5)
        (callerSubs fiveDocs udFree).length).web_redirect = some "/upgrade") ∧
    ¬ (_handle_add SUBSCRIPTION_PLANS wFive day0 ["u6", "a@b.c", "S6", "2026-01-01"]
        udUnlim).1.message.data.take 5 = ['❌', ' ', '*', '*', 'S'] :=
  ⟨add_quota_enforcement.1 SUBSCRIPTION_PLANS wFive day0 "u6" "a@b.c" "S6" "2026-01-01" []
      udFree fiveDocs ⟨2026, 1, 1⟩ _ (by decide) (by decide) (by decide) (by decide) rfl
      (by decide) (by decide) (by decide),
   add_quota_enforcement.2 SUBSCRIPTION_PLANS wFive day0
      ["u6", "a@b.c", "S6", "2026-01-01"] udUnlim (by decide)⟩
theorem dateLt_irrefl (d : CalDate) : dateLt d d = false := by
  unfold dateLt
  simp

/-- Claim C6: with all four required tokens present, `/add` fails with the
invalid-email envelope when the email lacks `@` or `.`; otherwise fails
with the invalid-date envelope when the expiry does not parse as a
`YYYY-MM-DD` calendar date, and with the past-date envelope when it parses
strictly before today; an expiry not before today — in particular equal to
today — passes on to the quota stage.  Every validation failure carries
the empty effect list, so no subscription is persisted. -/
theorem add_validation (plans : List (String × Plan)) (w : World) (today : CalDate)
    (u em sv ex : String) (rest : List String) (ud : UserData) :
    ((!pyHasChar em '@' || !pyHasChar em '.') = true →
      _handle_add plans w today (u :: em :: sv :: ex :: rest) ud = (invalidEmailResp, [])) ∧
    (pyHasChar em '@' = true → pyHasChar em '.' = true →
      (strptimeYMD ex = none →
        _handle_add plans w today (u :: em :: sv :: ex :: rest) ud = (invalidDateResp, [])) ∧
      (∀ d, strptimeYMD ex = some d → dateLt d today = true →
        _handle_add plans w today (u :: em :: sv :: ex :: rest) ud = (pastDateResp, [])) ∧
      (∀ d, strptimeYMD ex = some d → dateLt d today = false →
        _handle_add plans w today (u :: em :: sv :: ex :: rest) ud =
          addQuotaStage plans w today u em sv ex (joinAmount rest) ud) ∧
      (∀ d, strptimeYMD ex = some d → d = today →
        _handle_add plans w today (u :: em :: sv :: ex :: rest) ud =
          addQuotaStage plans w today u em sv ex (joinAmount rest) ud)) := by
  constructor
  · intro hbad
    simp only [_handle_add]
    rw [if_pos hbad]
  · intro hat hdot
    refine ⟨?_, ?_, ?_, ?_⟩
    · intro hnone
      simp only [_handle_add]
      rw [if_neg (by simp [hat, hdot]), hnone]
    · intro d hd hlt
      simp only [_handle_add]
      rw [if_neg (by simp [hat, hdot]), hd]
      simp only []
      rw [if_pos hlt]
    · intro d hd hlt
      simp only [_handle_add]
      rw [if_neg (by simp [hat, hdot]), hd]
      simp only []
      rw [if_neg (by simp [hlt])]
    · intro d hd heq
      subst heq
      simp only [_handle_add]
      rw [if_neg (by simp [hat, hdot]), hd]
      simp only []
      rw [if_neg (by simp [dateLt_irrefl])]

/-- Witness for C6: `not-an-email` is rejected as an email; a past date
`2020-01-01` is rejected as an expiry; an expiry equal to today passes
date validation. -/
theorem add_validation_witness :
    _handle_add SUBSCRIPTION_PLANS wEmpty day0
      ["john", "not-an-email", "Netflix", "2030-01-01"] udFree = (invalidEmailResp, []) ∧
    _handle_add SUBSCRIPTION_PLANS wEmpty day0
      ["john", "john@gmail.com", "Netflix", "2020-01-01"] udFree = (pastDateResp, []) ∧
    _handle_add SUBSCRIPTION_PLANS wEmpty day0
      ["john", "john@gmail.com", "Netflix", "2025-06-01"] udFree =
      addQuotaStage SUBSCRIPTION_PLANS wEmpty day0 "john" "john@gmail.com" "Netflix"
        "2025-06-01" (joinAmount []) udFree :=
  ⟨(add_validation SUBSCRIPTION_PLANS wEmpty day0 "john" "not-an-email" "Netflix"
      "2030-01-01" [] udFree).1 (by decide),
   (((add_validation SUBSCRIPTION_PLANS wEmpty day0 "john" "john@gmail.com" "Netflix"
      "2020-01-01" [] udFree).2 (by decide) (by decide)).2.1) ⟨2020, 1, 1⟩ (by decide) (by decide),
   (((add_validation SUBSCRIPTION_PLANS wEmpty day0 "john" "john@gmail.com" "Netflix"
      "2025-06-01" [] udFree).2 (by decide) (by decide)).2.2.2) ⟨2025, 6, 1⟩ (by decide) rfl⟩
/-- Claim C7: for a subscription whose expiry parses, the status `/list`
reports (via `listStatus`, computed once per row against the single
`today` of the invocation) is EXPIRED exactly when `days_left < 0`,
EXPIRING SOON exactly when `0 ≤ days_left ≤ 3`, and ACTIVE exactly when
`days_left > 3`; the reported day count is `days_left` itself. -/
theorem list_status_classification (today : CalDate) (ex : String) (d : CalDate)
    (h : strptimeYMD ex = some d) :
    ((listStatus today ex).1 = "🔴 EXPIRED" ↔ daysLeft d today < 0) ∧
    ((listStatus today ex).1 = "🟡 EXPIRING SOON" ↔
      0 ≤ daysLeft d today ∧ daysLeft d today ≤ 3) ∧
    ((listStatus today ex).1 = "✅ ACTIVE" ↔ 3 < daysLeft d today) ∧
    (listStatus today ex).2 = daysLeft d today := by
  simp only [listStatus]
  rw [h]
  simp only []
  by_cases h1 : daysLeft d today < 0
  · rw [if_pos h1]
    exact ⟨iff_of_true rfl h1,
      iff_of_false (by decide) (fun hc => by omega),
      iff_of_false (by decide) (fun hc => by omega), by trivial⟩
  · rw [if_neg h1]
    by_cases h2 : daysLeft d today ≤ 3
    · rw [if_pos h2]
      exact ⟨iff_of_false (by decide) h1,
        iff_of_true rfl ⟨by omega, h2⟩,
        iff_of_false (by decide) (fun hc => by omega), by trivial⟩
    · rw [if_neg h2]
      exact ⟨iff_of_false (by decide) h1,
        iff_of_false (by decide) (fun hc => by omega),
        iff_of_true rfl (by omega), by trivial⟩

/-- Witness for C7 at the spec's boundary cases: expiry exactly 3 days out
is EXPIRING SOON, and one day past is EXPIRED. -/
theorem list_status_classification_witness :
    ((listStatus ⟨2025, 6, 1⟩ "2025-06-04").1 = "🔴 EXPIRED" ↔
      daysLeft ⟨2025, 6, 4⟩ ⟨2025, 6, 1⟩ < 0) ∧
    ((listStatus ⟨2025, 6, 1⟩ "2025-06-04").1 = "🟡 EXPIRING SOON" ↔
      0 ≤ daysLeft ⟨2025, 6, 4⟩ ⟨2025, 6, 1⟩ ∧ daysLeft ⟨2025, 6, 4⟩ ⟨2025, 6, 1⟩ ≤ 3) ∧
    ((listStatus ⟨2025, 6, 1⟩ "2025-06-04").1 = "✅ ACTIVE" ↔
      3 < daysLeft ⟨2025, 6, 4⟩ ⟨2025, 6, 1⟩) ∧
    (listStatus ⟨2025, 6, 1⟩ "2025-06-04").2 = daysLeft ⟨2025, 6, 4⟩ ⟨2025, 6, 1⟩ ∧
    ((listStatus ⟨2025, 6, 1⟩ "2025-05-31").1 = "🔴 EXPIRED" ↔
      daysLeft ⟨2025, 5, 31⟩ ⟨2025, 6, 1⟩ < 0) := by
  have h1 := list_status_classification ⟨2025, 6, 1⟩ "2025-06-04" ⟨2025, 6, 4⟩ (by decide)
  have h2 := list_status_classification ⟨2025, 6, 1⟩ "2025-05-31" ⟨2025, 5, 31⟩ (by decide)
  exact ⟨h1.1, h1.2.1, h1.2.2.1, h1.2.2.2, h2.1⟩
/-- Claim C8: on a successful stream, `/search kw` always succeeds and its
payload is exactly the caller's subscriptions whose username, email or
service contains the lower-cased keyword as a substring
(case-insensitively, both sides lower-cased) — in particular an empty
result, including on an empty store, is still a success envelope with an
empty `results` payload; and matched rows are classified with the 7-day
expiring threshold of `searchStatus` rather than the 3-day one of
`listStatus`. -/
theorem search_behavior (w : World) (today : CalDate) (ud : UserData) (q : String)
    (rest : List String) (docs : List Doc) (hdb : w.subsDb = .ok docs) :
    (_handle_search w today (q :: rest) ud).1.success = true ∧
    (_handle_search w today (q :: rest) ud).1.data =
      some (.results ((callerSubs docs ud).filter (searchPred (pyLower q)))) ∧
    (∀ d : Doc, d ∈ (callerSubs docs ud).filter (searchPred (pyLower q)) ↔
      d ∈ callerSubs docs ud ∧
        (pyInStr (pyLower q) (pyLower d.data.username) = true ∨
         pyInStr (pyLower q) (pyLower d.data.email) = true ∨
         pyInStr (pyLower q) (pyLower d.data.service) = true)) ∧
    (∀ (exs : String) (dd : CalDate), strptimeYMD exs = some dd →
      ((searchStatus today exs).1 = "🟡 EXPIRING SOON" ↔
        0 ≤ daysLeft dd today ∧ daysLeft dd today ≤ 7)) := by
  refine ⟨?_, ?_, ?_, ?_⟩
  · simp only [_handle_search]
    rw [hdb]
    split
    · next heq => exact Except.noConfusion heq
    · next db heq =>
      injection heq with h2
      subst h2
      split
      · rfl
      · split
        · rfl
        · rfl
  · simp only [_handle_search]
    rw [hdb]
    split
    · next heq => exact Except.noConfusion heq
    · next db heq =>
      injection heq with h2
      subst h2
      split
      · next heq2 => rw [heq2]; rfl
      · next s0 r0 heq2 =>
        split
        · next hf => rw [heq2, hf]; rfl
        · next m0 ms hf => rw [heq2, hf]; rfl
  · intro d
    rw [List.mem_filter]
    constructor
    · rintro ⟨hmem, hp⟩
      refine ⟨hmem, ?_⟩
      simpa [searchPred, Bool.or_eq_true, or_assoc] using hp
    · rintro ⟨hmem, hp⟩
      refine ⟨hmem, ?_⟩
      simpa [searchPred, Bool.or_eq_true, or_assoc] using hp
  · intro exs dd hdd
    simp only [searchStatus]
    rw [hdd]
    simp only []
    by_cases h1 : daysLeft dd today < 0
    · rw [if_pos h1]
      exact iff_of_false (by decide) (fun hc => by omega)
    · rw [if_neg h1]
      by_cases h2 : daysLeft dd today ≤ 7
      · rw [if_pos h2]
        exact iff_of_true rfl ⟨by omega, h2⟩
      · rw [if_neg h2]
        exact iff_of_false (by decide) (fun hc => by omega)

/-- Witness for C8: searching `netflix` over a two-subscription store
matches exactly the Netflix record, and the searched store is reported
with a success envelope. -/
theorem search_behavior_witness :
    (_handle_search wTwo day0 ["netflix"] udFree).1.success = true ∧
    (_handle_search wTwo day0 ["netflix"] udFree).1.data =
      some (.results ((callerSubs [docA, docB, docOther] udFree).filter
        (searchPred (pyLower "netflix")))) ∧
    (docA ∈ (callerSubs [docA, docB, docOther] udFree).filter
        (searchPred (pyLower "netflix")) ↔
      docA ∈ callerSubs [docA, docB, docOther] udFree ∧
        (pyInStr (pyLower "netflix") (pyLower docA.data.username) = true ∨
         pyInStr (pyLower "netflix") (pyLower docA.data.email) = true ∨
         pyInStr (pyLower "netflix") (pyLower docA.data.service) = true)) ∧
    ((searchStatus day0 "2025-06-06").1 = "🟡 EXPIRING SOON" ↔
      0 ≤ daysLeft ⟨2025, 6, 6⟩ day0 ∧ daysLeft ⟨2025, 6, 6⟩ day0 ≤ 7) := by
  have h := search_behavior wTwo day0 udFree "netflix" [] [docA, docB, docOther] rfl
  exact ⟨h.1, h.2.1, h.2.2.1 docA, h.2.2.2 "2025-06-06" ⟨2025, 6, 6⟩ (by decide)⟩
theorem find_eq_some_split {α : Type} (p : α → Bool) :
    ∀ (l : List α) (a : α), l.find? p = some a →
      ∃ pre post, l = pre ++ a :: post ∧ p a = true ∧ ∀ b ∈ pre, p b = false := by
  intro l
  induction l with
  | nil => intro a h; exact absurd h (by simp)
  | cons x xs ih =>
    intro a h
    cases hx : p x with
    | true =>
      rw [List.find?_cons_of_pos _ hx] at h
      injection h with h2
      subst h2
      exact ⟨[], xs, rfl, hx, by simp⟩
    | false =>
      rw [List.find?_cons_of_neg _ (by rw [hx]; exact Bool.false_ne_true)] at h
      obtain ⟨pre, post, hl, hpa, hpre⟩ := ih a h
      refine ⟨x :: pre, post, by rw [hl]; rfl, hpa, ?_⟩
      intro b hb
      rcases List.mem_cons.mp hb with hb1 | hb2
      · rw [hb1]; exact hx
      · exact hpre b hb2

/-- Claim C9: with a nonempty argument list and a successful stream,
`/delete id` deletes exactly the FIRST caller subscription (in storage
iteration order) whose document id equals the argument or starts with it,
returning a success envelope with the deleted record's snapshot and the
single delete effect; when nothing matches it performs no mutation and
fails — listing the first three candidate ids with their services when
the caller has any subscriptions, and the no-subscriptions failure when
the store is empty. -/
theorem delete_behavior (w : World) (ud : UserData) (sub_id : String)
    (rest : List String) (docs : List Doc) (hdb : w.subsDb = .ok docs) :
    (∀ target, (callerSubs docs ud).find? (deleteMatches sub_id) = some target →
      w.deleteResult = .ok () →
      _handle_delete w (sub_id :: rest) ud =
        (deleteSuccessResp target, [.delete "subscriptions" target.id]) ∧
      (deleteSuccessResp target).success = true ∧
      (deleteSuccessResp target).data = some (.deletedSub target.data) ∧
      (deleteMatches sub_id target = true ∧
        ∃ pre post, callerSubs docs ud = pre ++ target :: post ∧
          ∀ b ∈ pre, deleteMatches sub_id b = false)) ∧
    ((callerSubs docs ud).find? (deleteMatches sub_id) = none →
      callerSubs docs ud ≠ [] →
      _handle_delete w (sub_id :: rest) ud =
        (notFoundResp sub_id (callerSubs docs ud), []) ∧
      (notFoundResp sub_id (callerSubs docs ud)).success = false ∧
      ((callerSubs docs ud).take 3).length ≤ 3) ∧
    (callerSubs docs ud = [] →
      _handle_delete w (sub_id :: rest) ud = (noSubsDeleteResp, []) ∧
      noSubsDeleteResp.success = false) := by
  refine ⟨?_, ?_, ?_⟩
  · intro target hfind hdel
    obtain ⟨pre, post, hl, hpa, hpre⟩ := find_eq_some_split _ _ _ hfind
    refine ⟨?_, rfl, rfl, hpa, pre, post, hl, hpre⟩
    simp only [_handle_delete]
    rw [hdb]
    split
    · next heq => exact Except.noConfusion heq
    · next db heq =>
      injection heq with h2
      subst h2
      split
      · next heq2 => rw [heq2] at hfind; exact absurd hfind (by simp)
      · next s0 r0 heq2 =>
        rw [heq2] at hfind
        rw [hfind, hdel]
  · intro hfind hne
    refine ⟨?_, rfl, ?_⟩
    · simp only [_handle_delete]
      rw [hdb]
      split
      · next heq => exact Except.noConfusion heq
      · next db heq =>
        injection heq with h2
        subst h2
        split
        · next heq2 => exact absurd heq2 hne
        · next s0 r0 heq2 =>
          rw [heq2] at hfind
          rw [hfind, heq2]
    · rw [List.length_take]
      exact min_le_left _ _
  · intro hempty
    refine ⟨?_, rfl⟩
    simp only [_handle_delete]
    rw [hdb]
    split
    · next heq => exact Except.noConfusion heq
    · next db heq =>
      injection heq with h2
      subst h2
      split
      · rfl
      · next s0 r0 heq2 => rw [hempty] at heq2; exact List.noConfusion heq2
/-- Witness for C9: with two candidate ids both starting with `ab`, the
first stored one is deleted and returned as a snapshot; an unmatched
prefix `zz` yields the not-found failure with at most three hints. -/
theorem delete_behavior_witness :
    (_handle_delete wTwo ["ab"] udFree =
        (deleteSuccessResp docA, [.delete "subscriptions" docA.id]) ∧
      (deleteSuccessResp docA).success = true ∧
      (deleteSuccessResp docA).data = some (.deletedSub docA.data) ∧
      (deleteMatches "ab" docA = true ∧
        ∃ pre post, callerSubs [docA, docB, docOther] udFree = pre ++ docA :: post ∧
          ∀ b ∈ pre, deleteMatches "ab" b = false)) ∧
    (_handle_delete wTwo ["zz"] udFree =
        (notFoundResp "zz" (callerSubs [docA, docB, docOther] udFree), []) ∧
      (notFoundResp "zz" (callerSubs [docA, docB, docOther] udFree)).success = false ∧
      ((callerSubs [docA, docB, docOther] udFree).take 3).length ≤ 3) :=
  ⟨(delete_behavior wTwo udFree "ab" [] [docA, docB, docOther] rfl).1 docA (by decide) rfl,
   (delete_behavior wTwo udFree "zz" [] [docA, docB, docOther] rfl).2.1 (by decide) (by decide)⟩
